import Mathlib

/-!
Verification development for the job-orchestration and streaming-pipeline
core of the Automation-agent repository.

Shallow embedding of:
  - src/pipeline/streaming_pipeline.py (validator / dedup / enrichment / run loop)
  - src/backend/jobs.py                (job registry and state machine)
  - src/backend/worker.py              (job supervisor)
  - src/scrapper/Scrapper.py           (asynchronous batched persistence writer)

Modelling conventions:
  - Python floats are modelled as exact rationals; every price value a claim
    touches is exactly representable.
  - Wall-clock timestamps (time.time fields, durations, poll timeouts) are
    outside the timeless model and are omitted.
  - uuid values are modelled as allocation counters; external collaborators
    (Firecrawl discovery and scrape, AI classification, pricing, database
    partner lookup) are inputs of type Except String carrying their result
    or a raised exception message.
  - Python exceptions are modelled with an explicit PyExc error channel;
    PipelineStopRequested and JobStopRequested are distinct constructors,
    and a generic Python "except Exception" handler corresponds to catching
    every PyExc constructor.
-/

namespace AutoAgent

/-! ## Python string primitives, char-list based for kernel evaluation -/

/-- Model of Python list/str prefix test on character lists. -/
def prefixOfList : List Char → List Char → Bool
  | [], _ => true
  | _ :: _, [] => false
  | a :: as, b :: bs => a == b && prefixOfList as bs

/-- Model of the Python substring test (needle in haystack) on char lists. -/
def containsList (needle : List Char) : List Char → Bool
  | [] => prefixOfList needle []
  | c :: cs => prefixOfList needle (c :: cs) || containsList needle cs

/-- Python substring operator: needle in hay. -/
def pyIn (needle hay : String) : Bool :=
  containsList needle.data hay.data

/-- Python str.startswith for a single prefix. -/
def pyStartsWith (s p : String) : Bool :=
  prefixOfList p.data s.data

/-- Python str.endswith for a single suffix. -/
def pyEndsWith (s p : String) : Bool :=
  prefixOfList p.data.reverse s.data.reverse

/-- Python str.replace pat repl on char lists, fuel-structured so the
kernel can evaluate it; the fuel is the input length, enough because every
step consumes at least one character of a non-empty pattern match. -/
def replaceListAux (pat repl : List Char) : List Char → Nat → List Char
  | l, 0 => l
  | [], _ + 1 => []
  | c :: cs, fuel + 1 =>
    if prefixOfList pat (c :: cs) && pat.length > 0 then
      repl ++ replaceListAux pat repl ((c :: cs).drop pat.length) fuel
    else
      c :: replaceListAux pat repl cs fuel

/-- Python str.replace pat repl (replaces every occurrence), on char
lists. Requires a non-empty pattern, as in every call site of the source. -/
def replaceList (pat repl : List Char) (l : List Char) : List Char :=
  replaceListAux pat repl l l.length

/-- Python str.replace. -/
def pyReplace (s pat repl : String) : String :=
  String.mk (replaceList pat.data repl.data s.data)

/-- Python str.lower (ASCII case mapping, which covers every call site). -/
def pyLower (s : String) : String :=
  String.mk (s.data.map Char.toLower)

/-- Python str.upper (ASCII case mapping, which covers every call site). -/
def pyUpper (s : String) : String :=
  String.mk (s.data.map Char.toUpper)

/-- Python str.strip with no argument: remove leading and trailing whitespace. -/
def pyStrip (s : String) : String :=
  String.mk (((s.data.dropWhile Char.isWhitespace).reverse.dropWhile
    Char.isWhitespace).reverse)

/-- Split a char list on a separator character; Python str.split(sep)
semantics: the result always has at least one (possibly empty) part. -/
def splitListOn (sep : Char) : List Char → List (List Char)
  | [] => [[]]
  | c :: cs =>
    if c == sep then
      [] :: splitListOn sep cs
    else
      match splitListOn sep cs with
      | [] => [[c]]
      | p :: ps => (c :: p) :: ps

/-- Python str.split(sep) for a one-character separator. -/
def pySplit (s : String) (sep : Char) : List String :=
  (splitListOn sep s.data).map String.mk

/-- Python str.rstrip of a single character (used for the trailing slash). -/
def pyRstripChar (s : String) (c : Char) : String :=
  String.mk ((s.data.reverse.dropWhile (· == c)).reverse)

/-- Python str.title restricted to ASCII letters: the first letter of each
alphabetic run is uppercased, the rest lowercased. -/
def pyTitleAux : Bool → List Char → List Char
  | _, [] => []
  | prevAlpha, c :: cs =>
    (if c.isAlpha then (if prevAlpha then c.toLower else c.toUpper) else c)
      :: pyTitleAux c.isAlpha cs

/-- Python str.title. -/
def pyTitle (s : String) : String :=
  String.mk (pyTitleAux false s.data)

/-! ## urllib.parse.urlparse model

Model of urllib.parse.urlparse restricted to the absolute http and https
URLs that reach it through normalize_url, and to the three components the
source reads (scheme, netloc, path; query and fragment are split off and
discarded exactly as the source discards them). -/

/-- Split a char list at the first character satisfying p: the first
component is everything before it, the second the remainder including it. -/
def takeUntil (p : Char → Bool) : List Char → List Char × List Char
  | [] => ([], [])
  | c :: cs =>
    if p c then ([], c :: cs)
    else
      match takeUntil p cs with
      | (a, b) => (c :: a, b)

/-- The three urlparse components the source uses. -/
structure UrlParts where
  scheme : String
  netloc : String
  path : String
deriving DecidableEq, Repr

/-- Model of urllib.parse.urlparse for the scheme, netloc and path
components. A scheme is recognised before the first colon when it is a
non-empty run of scheme characters starting with a letter; a netloc follows
when the remainder starts with two slashes; the path then runs to the first
question mark or hash, matching how urlparse strips query and fragment. -/
def urlparse (url : String) : UrlParts :=
  let (schemeChars, rest) := takeUntil (· == ':') url.data
  let isScheme := schemeChars ≠ [] &&
    (match schemeChars with
     | c :: cs => c.isAlpha && cs.all (fun d => d.isAlphanum || d == '+' || d == '-' || d == '.')
     | [] => false)
  let (scheme, afterScheme) :=
    match rest with
    | ':' :: r => if isScheme then (String.mk (schemeChars.map Char.toLower), r) else ("", url.data)
    | _ => ("", url.data)
  match afterScheme with
  | '/' :: '/' :: r =>
    let (netlocChars, afterNetloc) := takeUntil (fun c => c == '/' || c == '?' || c == '#') r
    let (pathChars, _) := takeUntil (fun c => c == '?' || c == '#') afterNetloc
    { scheme := scheme, netloc := String.mk netlocChars, path := String.mk pathChars }
  | r =>
    let (pathChars, _) := takeUntil (fun c => c == '?' || c == '#') r
    { scheme := scheme, netloc := "", path := String.mk pathChars }

namespace Pipeline

/-! ## Pure record validators from src/pipeline/streaming_pipeline.py -/

/-- Embeds ALLOWED_CURRENCIES (streaming_pipeline.py line 192). -/
def ALLOWED_CURRENCIES : List String := ["AED", "TND"]

/-- Embeds CURRENCY_NORMALIZATION (streaming_pipeline.py lines 195-199). -/
def CURRENCY_NORMALIZATION : List (String × String) :=
  [("AED", "AED"), ("D", "AED"), ("د.إ", "AED"), ("د.إ.‏", "AED"),
   ("د", "AED"), ("DH", "AED"), ("DHM", "AED"),
   ("TND", "TND"), ("DT", "TND"), ("د.ت", "TND"), ("ت", "TND"), ("DIN", "TND")]

/-- Embeds normalize_currency (lines 213-217). The argument is optional
because call sites pass product_raw.get("currency"), which may be absent;
Python then fails the truthiness test exactly like the empty string. -/
def normalize_currency (raw : Option String) : Option String :=
  match raw with
  | none => none
  | some r =>
    if r = "" then none
    else (CURRENCY_NORMALIZATION.find? (fun p => p.1 == pyUpper (pyStrip r))).map (·.2)

/-- The price field of a raw candidate record: absent, numeric or string,
per the PRODUCT_SCHEMA price type of number, string or null. -/
inductive PriceField where
  | null : PriceField
  | num : ℚ → PriceField
  | str : String → PriceField
deriving DecidableEq, Repr

/-- Read a non-empty all-digit string as a number, None otherwise
(int-parsing restricted to the shapes float() sees here). -/
def digitsToNatAux : Nat → List Char → Option Nat
  | acc, [] => some acc
  | acc, c :: cs =>
    if c.isDigit then digitsToNatAux (acc * 10 + (c.toNat - 48)) cs else none

/-- Decimal value of a digit string; none when empty or not all digits. -/
def digitStringToNat (s : String) : Option Nat :=
  if s = "" then none else digitsToNatAux 0 s.data

/-- Model of Python float() applied to a non-empty string of digits and
dots, the only shape parse_price can pass it: at most one dot and at least
one digit, read as an exact decimal. -/
def floatOfCleaned (s : String) : Option ℚ :=
  match (splitListOn '.' s.data).map String.mk with
  | [i] => (digitStringToNat i).map (fun n => mkRat n 1)
  | [i, f] =>
    if i = "" && f = "" then none
    else
      match (if i = "" then some 0 else digitStringToNat i),
            (if f = "" then some 0 else digitStringToNat f) with
      | some a, some b => some (mkRat (a * 10 ^ f.length + b) (10 ^ f.length))
      | _, _ => none
  | _ => none

/-- Embeds parse_price (lines 220-234): numbers pass when positive; strings
are cleaned to digits and dots, then parsed as a float and required
positive; everything else is rejected. -/
def parse_price (value : PriceField) : Option ℚ :=
  match value with
  | .null => none
  | .num q => if q > 0 then some q else none
  | .str s =>
    let cleaned := String.mk (s.data.filter (fun c => c.isDigit || c == '.'))
    if cleaned = "" then none
    else
      match floatOfCleaned cleaned with
      | some p => if p > 0 then some p else none
      | none => none

/-- Embeds normalize_url (lines 237-243). -/
def normalize_url (url : String) : Option String :=
  if url = "" || url = "Unknown URL" || url = "unknown" then none
  else
    let u := pyStrip url
    if pyStartsWith u "http://" || pyStartsWith u "https://" then some u else none

/-- Embeds canonical_url (lines 246-248): scheme, netloc and path with any
trailing slashes removed. -/
def canonical_url (url : String) : String :=
  let p := urlparse url
  pyRstripChar (p.scheme ++ "://" ++ p.netloc ++ p.path) '/'

/-- Embeds get_country_from_domain (lines 202-210) over the
DOMAIN_COUNTRY_MAP table (lines 179-189). -/
def DOMAIN_COUNTRY_MAP : List (String × String) :=
  [("jumbo.ae", "AE"), ("noon.com", "AE"), ("sharafdg.com", "AE"),
   ("amazon.ae", "AE"), ("virginmegastore.ae", "AE"), ("emaxme.com", "AE"),
   ("jumia.com.tn", "TN"), ("tunisianet.com.tn", "TN"), ("mytek.tn", "TN")]

/-- Embeds get_country_from_domain (lines 202-210). -/
def get_country_from_domain (domain : String) : String :=
  let d := pyReplace (pyLower domain) "www." ""
  match DOMAIN_COUNTRY_MAP.find? (fun p => p.1 == d) with
  | some p => p.2
  | none =>
    if pyEndsWith d ".tn" then "TN"
    else if pyEndsWith d ".ae" then "AE"
    else "AE"

/-- One entry of AVAILABLE_CATEGORIES (lines 73-144). -/
structure CategoryInfo where
  display_name : String
  keywords : List String
deriving DecidableEq, Repr

/-- Embeds AVAILABLE_CATEGORIES (streaming_pipeline.py lines 73-144). -/
def AVAILABLE_CATEGORIES : List (String × CategoryInfo) :=
  [("ELECTRONIC_PRODUCTS",
    { display_name := "Electronics",
      keywords := ["electronic", "smartphone", "laptop", "tablet", "tv", "television",
        "smartwatch", "gaming", "console", "camera", "audio", "headphone",
        "speaker", "earphone", "mobile", "computer", "monitor", "ipad", "macbook"] }),
   ("HOME_APPLIANCES",
    { display_name := "Home Appliances",
      keywords := ["appliance", "refrigerator", "washing machine", "dishwasher",
        "oven", "microwave", "air conditioner", "vacuum", "dryer"] }),
   ("BABY_EQUIPMENT_ESSENTIAL",
    { display_name := "Baby Products",
      keywords := ["baby", "stroller", "car seat", "crib", "monitor", "carrier",
        "high chair", "bassinet"] }),
   ("BAGS_LUGGAGE_ESSENTIAL",
    { display_name := "Bags & Luggage",
      keywords := ["bag", "luggage", "backpack", "suitcase", "briefcase", "handbag",
        "wallet", "purse"] }),
   ("GARDEN_DIY_ESSENTIAL",
    { display_name := "Garden & DIY",
      keywords := ["garden", "lawn", "mower", "chainsaw", "drill", "tool", "grill",
        "outdoor furniture"] }),
   ("HEALTH_WELLNESS_ESSENTIAL",
    { display_name := "Health & Wellness",
      keywords := ["health", "wellness", "blood pressure", "thermometer", "scale",
        "fitness tracker", "massage"] }),
   ("LIVING_FURNITURE_ESSENTIAL",
    { display_name := "Living & Furniture",
      keywords := ["furniture", "couch", "sofa", "table", "chair", "bed", "desk",
        "wardrobe", "cabinet"] }),
   ("MICRO_MOBILITY_ESSENTIAL",
    { display_name := "Micromobility",
      keywords := ["bike", "bicycle", "scooter", "electric bike", "e-bike", "skateboard",
        "hoverboard"] }),
   ("OPTICAL_HEARING_ESSENTIAL",
    { display_name := "Optical & Hearing",
      keywords := ["glasses", "sunglasses", "hearing aid", "contact lens", "optical"] }),
   ("PERSONAL_CARE_DEVICES",
    { display_name := "Personal Care",
      keywords := ["hair dryer", "shaver", "electric toothbrush", "straightener",
        "curling iron", "epilator"] }),
   ("OPULENCIA_PREMIUM",
    { display_name := "Premium & Luxury",
      keywords := ["luxury", "designer", "premium", "rolex", "gucci", "louis vuitton",
        "hermès", "chanel", "jewelry", "watch"] }),
   ("SOUND_MUSIC_ESSENTIAL",
    { display_name := "Sound & Music",
      keywords := ["guitar", "piano", "keyboard", "amplifier", "music", "instrument",
        "drum", "violin"] }),
   ("SPORT_OUTDOOR_ESSENTIAL",
    { display_name := "Sport & Outdoor",
      keywords := ["sport", "outdoor", "camping", "tent", "fishing", "golf", "yoga",
        "exercise", "gym", "fitness equipment", "treadmill"] }),
   ("TEXTILE_FOOTWEAR_ZARA",
    { display_name := "Textile & Footwear",
      keywords := ["clothes", "shoes", "boots", "sneakers", "jacket", "coat", "dress",
        "shirt", "pants", "footwear"] })]

/-- Embeds match_product_to_selected_categories (lines 147-176): empty
selection accepts everything, otherwise a keyword-substring match of any
selected category against the lowercased name-plus-category text. -/
def match_product_to_selected_categories
    (product_name category : String) (selected_categories : List String) : Bool :=
  if selected_categories.isEmpty then true
  else
    let search_text := pyLower (product_name ++ " " ++ category)
    selected_categories.any (fun cat_key =>
      match AVAILABLE_CATEGORIES.find? (fun p => p.1 == cat_key) with
      | none => false
      | some p => p.2.keywords.any (fun kw => pyIn (pyLower kw) search_text))

/-- The run-statistics counters initialised at streaming_pipeline.py lines
915-923 and incremented throughout scrape_and_process_url. -/
structure Stats where
  scraped : Nat := 0
  processed : Nat := 0
  eligible : Nat := 0
  not_eligible : Nat := 0
  duplicates : Nat := 0
  invalid : Nat := 0
  filtered_out : Nat := 0
deriving DecidableEq, Repr

/-- The result record true_streaming_pipeline returns (one of the early
stop returns, the discovery-failure return, the stopped return at lines
1083-1090, or the success return at lines 1124-1133). Wall-clock duration
fields are omitted. -/
structure PipelineResult where
  success : Bool
  stopped : Bool := false
  error : Option String := none
  stats : Option Stats := none
  partner_name : Option String := none
  urls_processed : Option Nat := none
deriving DecidableEq, Repr

end Pipeline

namespace Backend

/-! ## src/backend/jobs.py: the job registry -/

/-- Embeds JobStatus (jobs.py lines 10-16). -/
inductive JobStatus where
  | pending | running | completed | failed | stopping | stopped
deriving DecidableEq, Repr

/-- Embeds the Job dataclass (jobs.py lines 19-32). The four wall-clock
timestamp fields are outside the timeless model and omitted; the result
field is instantiated with the pipeline result record the worker stores. -/
structure Job where
  job_id : String
  start_url : String
  selected_categories : List String
  status : JobStatus
  progress : List (String × String)
  error : Option String := none
  result : Option Pipeline.PipelineResult := none
  stop_requested : Bool := false
deriving DecidableEq, Repr

/-- The registry map, an insertion-ordered association list standing for
the Python dict self._jobs. All operations run under one mutex in the
source, so they are modelled as atomic functions on this value. -/
abbrev Registry := List (String × Job)

/-- Python dict lookup self._jobs.get(job_id). -/
def get_job (r : Registry) (job_id : String) : Option Job :=
  (List.find? (fun p => p.1 == job_id) r).map (·.2)

/-- Write back a job under its key, as attribute mutation of the stored
object does. -/
def setJob (r : Registry) (job_id : String) (j : Job) : Registry :=
  List.map (fun p => if p.1 == job_id then (p.1, j) else p) r

/-- Embeds create_job (lines 42-54); the fresh uuid is an input. -/
def create_job (r : Registry) (job_id : String) (start_url : String)
    (selected_categories : Option (List String)) : Registry × String :=
  (r ++ [(job_id,
    { job_id := job_id
      start_url := start_url
      selected_categories := selected_categories.getD []
      status := JobStatus.pending
      progress := [] })], job_id)

/-- The keyword updates update_job applies with setattr; an absent field is
not passed. Only fields callers actually pass are represented (status,
result, error; timestamp arguments are omitted with the timestamp fields). -/
structure JobUpdates where
  status : Option JobStatus := none
  error : Option String := none
  result : Option Pipeline.PipelineResult := none
deriving DecidableEq, Repr

/-- setattr application for the represented update keys. -/
def applyUpdates (j : Job) (u : JobUpdates) : Job :=
  { j with
    status := u.status.getD j.status
    error := match u.error with | some e => some e | none => j.error
    result := match u.result with | some v => some v | none => j.result }

/-- Embeds update_job (lines 64-73): unknown id returns False untouched,
otherwise the passed attributes are set. -/
def update_job (r : Registry) (job_id : String) (u : JobUpdates) : Registry × Bool :=
  match get_job r job_id with
  | none => (r, false)
  | some j => (setJob r job_id (applyUpdates j u), true)

/-- Python dict.update: existing keys are overwritten in place, new keys
appended. -/
def dictUpdate (d upd : List (String × String)) : List (String × String) :=
  upd.foldl (fun acc kv =>
    if acc.any (fun p => p.1 == kv.1) then
      acc.map (fun p => if p.1 == kv.1 then kv else p)
    else acc ++ [kv]) d

/-- Embeds update_progress (lines 75-82): merges keys into the progress
map, non-destructive to other keys. -/
def update_progress (r : Registry) (job_id : String)
    (progress : List (String × String)) : Registry × Bool :=
  match get_job r job_id with
  | none => (r, false)
  | some j => (setJob r job_id { j with progress := dictUpdate j.progress progress }, true)

/-- Embeds mark_running (lines 84-85). -/
def mark_running (r : Registry) (job_id : String) : Registry × Bool :=
  update_job r job_id { status := some JobStatus.running }

/-- Embeds mark_completed (lines 87-93). -/
def mark_completed (r : Registry) (job_id : String)
    (result : Pipeline.PipelineResult) : Registry × Bool :=
  update_job r job_id { status := some JobStatus.completed, result := some result }

/-- Embeds mark_failed (lines 95-101). -/
def mark_failed (r : Registry) (job_id : String) (error : String) : Registry × Bool :=
  update_job r job_id { status := some JobStatus.failed, error := some error }

/-- Embeds request_stop (lines 103-112): sets the stop flag and moves a
RUNNING job to STOPPING; any other status is left as it is. -/
def request_stop (r : Registry) (job_id : String) : Registry × Bool :=
  match get_job r job_id with
  | none => (r, false)
  | some j =>
    (setJob r job_id
      { j with
        stop_requested := true
        status := if j.status = JobStatus.running then JobStatus.stopping else j.status },
     true)

/-- Embeds should_stop (lines 114-117). -/
def should_stop (r : Registry) (job_id : String) : Bool :=
  match get_job r job_id with
  | some j => j.stop_requested
  | none => false

/-- Embeds delete_job (lines 119-121). -/
def delete_job (r : Registry) (job_id : String) : Registry × Bool :=
  match get_job r job_id with
  | none => (r, false)
  | some _ => (List.filter (fun p => ¬ (p.1 == job_id)) r, true)

/-- Convenience read of a status for the state-machine statements. -/
def getStatus (r : Registry) (job_id : String) : Option JobStatus :=
  (get_job r job_id).map (·.status)

end Backend

namespace Pipeline

/-! ## Runtime model of scrape_and_process_url and true_streaming_pipeline

The Python exceptions the core raises or catches. PipelineStopRequested
(streaming_pipeline.py lines 41-43) and JobStopRequested (worker.py lines
11-12) are distinct classes; a bare Python except-Exception handler
catches every constructor. -/
inductive PyExc where
  | pipelineStop : String → PyExc
  | jobStop : PyExc
  | other : String → PyExc
deriving DecidableEq, Repr

/-- Whether a unit result is a normal return. -/
def excOk : Except PyExc Unit → Bool
  | Except.ok _ => true
  | Except.error _ => false

/-- The raised exception of a unit result, if any. -/
def excErr : Except PyExc Unit → Option PyExc
  | Except.ok _ => none
  | Except.error e => some e

/-- The returned dict of a run, if it returned normally. -/
def runOutcome {α : Type} : Except PyExc α → Option α
  | Except.ok r => some r
  | Except.error _ => none

/-- The exception a run raised, if any. -/
def runExc {α : Type} : Except PyExc α → Option PyExc
  | Except.ok _ => none
  | Except.error e => some e

/-- A raw candidate record as delivered by the scrape collaborator under
PRODUCT_SCHEMA (lines 46-68): product_name required, the rest nullable. -/
structure RawProduct where
  product_name : String := ""
  brand : Option String := none
  price : PriceField := PriceField.null
  currency : Option String := none
  description : Option String := none
  image_url : Option String := none
  product_url : Option String := none
  category : Option String := none
deriving DecidableEq, Repr

/-- The classification sub-dict of a classify_product result, read with
.get defaults at lines 456 and 468-477. -/
structure Classification where
  eligible : Bool := false
  reason : Option String := none
  risk_profile : Option String := none
  coverage_modules : List String := []
  exclusions : List String := []
deriving DecidableEq, Repr

/-- A classify_product.invoke result; every key is read with a .get
default, so each field is optional. -/
structure ClassifyResult where
  classification : Option Classification := none
  market : Option String := none
  category : Option String := none
deriving DecidableEq, Repr

/-- The argument dict of classify_product.invoke (lines 445-452). -/
structure ClassifyQuery where
  product_name : String
  category : String
  brand : String
  price : ℚ
  currency : String
  description : String
deriving DecidableEq, Repr

/-- The argument dict of calculate_pricing.invoke (lines 527-532 and
582-586; the ASSURMAX call passes no risk_profile). -/
structure PricingQuery where
  risk_profile : Option String := none
  product_value : ℚ
  market : String
  plan : String
deriving DecidableEq, Repr

/-- A calculate_pricing.invoke result restricted to the keys the source
reads. monthly_premium models the optional monthly.monthly_premium chain
read with .get at line 541; the remaining keys are read by direct
indexing and are modelled as mandatory fields of the collaborator result. -/
structure PricingResult where
  error : Option String := none
  monthly_premium : Option ℚ := none
  annual_premium_12m : ℚ := 0
  currency_12m : String := ""
  total_premium_24m : ℚ := 0
  currency_24m : String := ""
  pack_cap : ℚ := 0
  max_products_covered : Nat := 0
deriving DecidableEq, Repr

/-- The assurmax_premium sub-dict attached at lines 591-598. -/
structure AssurMax where
  monthly_amount : ℚ
  amount : ℚ
  currency : String
  pack_cap : ℚ
  max_products : Nat
  eligible : Bool := true
deriving DecidableEq, Repr

/-- The response dict built at lines 460-473 and extended along the
eligible and ineligible paths; this is the package_data persisted with the
insurance package. -/
structure Response where
  name : String
  brand : String
  category : String
  price : ℚ
  currency : String
  eligible : Bool
  market : String
  risk_profile : Option String := none
  coverage_modules : List String := []
  exclusions : List String := []
  reason : Option String := none
  monthly_premium : Option (ℚ × String) := none
  standard_premium_12m : Option (ℚ × String) := none
  standard_premium_24m : Option (ℚ × String) := none
  assurmax_premium : Option AssurMax := none
deriving DecidableEq, Repr

/-- A row of the products table as written at lines 416-435; uuid values
are modelled by the allocation counter pid. -/
structure StoredProduct where
  pid : Nat
  partner_id : Nat
  product_name : String
  description : String
  category : String
  brand : String
  price : ℚ
  currency : String
  product_url : String
  image_url : Option String := none
  source_website : String
  in_stock : Bool := true
  processing_status : String
deriving DecidableEq, Repr

/-- A row of the insurance-packages table as written by
create_insurance_package (database/crud.py lines 192-224). -/
structure InsurancePackage where
  partner_id : Nat
  product_id : Nat
  package_data : Response
  status : String
  ai_confidence : ℚ
deriving DecidableEq, Repr

/-- The mutable state of one pipeline run: the job registry (reached
through the progress callback), the run-scoped stop flag, Seen-Set,
statistics, and the durable store tables. The uuid allocator nextId feeds
product ids. -/
structure RunState where
  reg : Backend.Registry := []
  stopFlag : Bool := false
  seen : List String := []
  stats : Stats := {}
  products : List StoredProduct := []
  packages : List InsurancePackage := []
  partners : List (Nat × String) := []
  nextId : Nat := 0

/-- The external collaborators of one run, given as their observable
results: discovery (client.map), scrape (client.scrape, none when no JSON
dict is returned), classification, pricing, and the partner lookup query;
an error value is a raised exception with its message. -/
structure Collab where
  mapLinks : Except String (List String)
  scrape : String → Except String (Option (List RawProduct))
  classify : ClassifyQuery → Except String ClassifyResult
  price : PricingQuery → Except String PricingResult
  partnerLookup : String → Except String (Option Nat)
  newPartnerId : Nat := 0

/-- The progress callback the worker installs (worker.py lines 39-42):
raise JobStopRequested when the registry stop flag is set, otherwise merge
the update into the job progress. Progress payloads are abbreviated to
representative key-value pairs; no claim depends on their contents. -/
def progress_cb (jobId : String) (upd : List (String × String))
    (s : RunState) : RunState × Except PyExc Unit :=
  if Backend.should_stop s.reg jobId then (s, Except.error PyExc.jobStop)
  else ({ s with reg := (Backend.update_progress s.reg jobId upd).1 }, Except.ok ())

/-- The report_progress wrapper (streaming_pipeline.py lines 698-706): on
any exception from the callback, set the run stop flag and re-raise. -/
def report_progress (jobId : String) (upd : List (String × String))
    (s : RunState) : RunState × Except PyExc Unit :=
  match progress_cb jobId upd s with
  | (s1, Except.ok _) => (s1, Except.ok ())
  | (s1, Except.error e) => ({ s1 with stopFlag := true }, Except.error e)

/-- Embeds create_insurance_package (database/crud.py lines 192-224). -/
def create_insurance_package (s : RunState) (partner_id product_id : Nat)
    (package_data : Response) (is_eligible : Bool) : RunState :=
  { s with packages := s.packages ++
      [{ partner_id := partner_id
         product_id := product_id
         package_data := package_data
         status := if is_eligible then "eligible" else "not_eligible"
         ai_confidence := if is_eligible then mkRat 95 100 else 0 }] }

/-- The commit at lines 615-617 and 487-489 setting processing_status to
completed for the product row. -/
def markProductCompleted (s : RunState) (pid : Nat) : RunState :=
  { s with products := s.products.map (fun pr =>
      if pr.pid == pid then { pr with processing_status := "completed" } else pr) }

/-- Model of Python round(x, 2); Python rounds the underlying float to
nearest (ties to even), modelled as nearest on exact rationals. No claim
compares a rounded premium value. -/
def pyRound2 (q : ℚ) : ℚ := mkRat (round (q * 100) : ℤ) 100

/-- The electronics keyword list of the ASSURMAX branch (lines 563-566). -/
def electronics_keywords : List String :=
  ["ELECTRONIC", "SMARTPHONE", "LAPTOP", "TABLET",
   "TV", "TELEVISION", "SMARTWATCH", "GAMING", "CONSOLE"]

/-- Embeds the pricing try block (lines 524-603). Every exception raised
inside it, including the PipelineStopRequested of the stop check at line
578 and a KeyError on a missing monthly premium in the ASSURMAX result, is
caught by the except handler at line 600, which degrades the response to
ineligible with a Pricing-failed reason. The block reads state but does
not write it, so it is a pure function of the response. -/
def pricingPhase (co : Collab) (stopFlag : Bool) (response : Response)
    (risk_profile : Option String) (product_value : ℚ) (market : String)
    (crCategory : String) : Response :=
  match co.price { risk_profile := risk_profile, product_value := product_value,
                   market := market, plan := "STANDARD" } with
  | Except.error m => { response with eligible := false, reason := some ("Pricing failed: " ++ m) }
  | Except.ok sp =>
    let response :=
      match sp.error with
      | some err => { response with eligible := false, reason := some err }
      | none =>
        let monthly_prem :=
          match sp.monthly_premium with
          | some m => if m = 0 then pyRound2 (sp.annual_premium_12m * mkRat 105 100 / 12) else m
          | none => pyRound2 (sp.annual_premium_12m * mkRat 105 100 / 12)
        { response with
          monthly_premium := some (monthly_prem, sp.currency_12m)
          standard_premium_12m := some (sp.annual_premium_12m, sp.currency_12m)
          standard_premium_24m := some (sp.total_premium_24m, sp.currency_24m) }
    if pyUpper market = "UAE" && product_value ≤ 5000 then
      let risk_profile_upper :=
        match risk_profile with
        | some rp => if rp = "" then "" else pyUpper rp
        | none => ""
      let category_upper := pyUpper crCategory
      let is_electronics := electronics_keywords.any (fun kw =>
        pyIn kw risk_profile_upper || pyIn kw category_upper)
      if is_electronics then
        if stopFlag then
          { response with
            eligible := false
            reason := some "Pricing failed: Stop requested before ASSURMAX" }
        else
          match co.price { product_value := product_value, market := market,
                           plan := "ASSURMAX" } with
          | Except.error m =>
            { response with eligible := false, reason := some ("Pricing failed: " ++ m) }
          | Except.ok ap =>
            if ap.error = none then
              match ap.monthly_premium with
              | some mp =>
                let am : AssurMax :=
                  { monthly_amount := mp
                    amount := ap.annual_premium_12m
                    currency := ap.currency_12m
                    pack_cap := ap.pack_cap
                    max_products := ap.max_products_covered }
                { response with assurmax_premium := some am }
              | none =>
                { response with
                  eligible := false
                  reason := some "Pricing failed: monthly_premium" }
            else response
      else response
    else response

/-- The per-address processing context: the arguments of
scrape_and_process_url that are constant for one address (lines 291-303);
the shared seen-set, statistics and stop flag live in RunState. -/
structure UrlCtx where
  url : String
  partner_id : Nat
  domain : String
  url_index : Nat
  total_urls : Nat
  selected_categories : List String
deriving DecidableEq, Repr

/-- The product row built at lines 416-432, with processing_status
processing and the uuid drawn from the allocation counter. -/
def mkStoredProduct (ctx : UrlCtx) (s : RunState) (p : RawProduct) (price : ℚ)
    (currency : String) (product_url : String) : StoredProduct :=
  { pid := s.nextId
    partner_id := ctx.partner_id
    product_name := pyStrip p.product_name
    description := match p.description with
      | some d => if d = "" then "" else pyStrip d
      | none => ""
    category := match p.category with
      | some c => if c = "" then "N/A" else c
      | none => "N/A"
    brand := match p.brand with
      | some b => if b = "" then "Unknown" else b
      | none => "Unknown"
    price := price
    currency := currency
    product_url := product_url
    image_url := p.image_url
    source_website := ctx.domain
    processing_status := "processing" }

/-- The argument dict of the classify_product call for a stored record. -/
def classifyQueryOf (prod : StoredProduct) : ClassifyQuery :=
  { product_name := prod.product_name
    category := prod.category
    brand := prod.brand
    price := prod.price
    currency := prod.currency
    description := prod.description }

/-- Embeds lines 415-653: persist the validated record with status
processing, then classify (an exception here propagates uncaught), build
the response, and on the ineligible or the priced path persist the
insurance package, mark the product completed, bump the counters and
report progress (a callback exception propagates). -/
def enrichPersist (jobId : String) (co : Collab) (ctx : UrlCtx) (s : RunState)
    (p : RawProduct) (price : ℚ) (currency : String) (product_url : String) :
    RunState × Except PyExc Unit :=
  let pid := s.nextId
  let prod : StoredProduct := mkStoredProduct ctx s p price currency product_url
  let s := { s with products := s.products ++ [prod], nextId := pid + 1 }
  if s.stopFlag then (s, Except.error (PyExc.pipelineStop "Stop requested before AI classification"))
  else
    match co.classify (classifyQueryOf prod) with
    | Except.error m => (s, Except.error (PyExc.other m))
    | Except.ok cr =>
      let classification := cr.classification.getD {}
      let market := cr.market.getD "UAE"
      let response : Response :=
        { name := prod.product_name
          brand := prod.brand
          category := cr.category.getD "N/A"
          price := prod.price
          currency := prod.currency
          eligible := classification.eligible
          market := market
          risk_profile := classification.risk_profile
          coverage_modules := classification.coverage_modules
          exclusions := classification.exclusions }
      if !response.eligible then
        let response := { response with reason := some (classification.reason.getD "Not eligible") }
        let s := create_insurance_package s ctx.partner_id pid response false
        let s := markProductCompleted s pid
        let s := { s with stats := { s.stats with
          processed := s.stats.processed + 1
          not_eligible := s.stats.not_eligible + 1 } }
        report_progress jobId [("phase", "product"), ("eligible_status", "False")] s
      else if s.stopFlag then
        (s, Except.error (PyExc.pipelineStop "Stop requested before pricing"))
      else
        let response := pricingPhase co s.stopFlag response classification.risk_profile
          prod.price market (cr.category.getD "")
        let s := create_insurance_package s ctx.partner_id pid response response.eligible
        let s := markProductCompleted s pid
        let s := { s with stats := { s.stats with
          processed := s.stats.processed + 1
          eligible := if response.eligible then s.stats.eligible + 1 else s.stats.eligible
          not_eligible := if response.eligible then s.stats.not_eligible else s.stats.not_eligible + 1 } }
        report_progress jobId [("phase", "product"), ("eligible_status", "each")] s

/-- Line 376: product_url_raw is the record URL, or the page URL when the
record URL is absent or falsy. -/
def productUrlRaw (ctx : UrlCtx) (p : RawProduct) : String :=
  match p.product_url with
  | some u => if u = "" then ctx.url else u
  | none => ctx.url

/-- Embeds one iteration of the per-product loop (lines 348-653): stop
check, scraped counter, name check, category filter, URL normalization,
canonical dedup against the Seen-Set (inserted before the price and
currency checks, as in the source), then price and currency validation and
the enrichment step. -/
def processProduct (jobId : String) (co : Collab) (ctx : UrlCtx) (s : RunState)
    (p : RawProduct) : RunState × Except PyExc Unit :=
  if s.stopFlag then (s, Except.error (PyExc.pipelineStop "Stop requested during processing"))
  else
    let s := { s with stats := { s.stats with scraped := s.stats.scraped + 1 } }
    if p.product_name = "" then
      ({ s with stats := { s.stats with invalid := s.stats.invalid + 1 } }, Except.ok ())
    else
      let product_name := p.product_name
      let product_category := p.category.getD ""
      if !match_product_to_selected_categories product_name product_category
          ctx.selected_categories then
        ({ s with stats := { s.stats with filtered_out := s.stats.filtered_out + 1 } }, Except.ok ())
      else
        match normalize_url (productUrlRaw ctx p) with
        | none =>
          ({ s with stats := { s.stats with invalid := s.stats.invalid + 1 } }, Except.ok ())
        | some nu =>
          let product_url := canonical_url nu
          if s.seen.contains product_url then
            ({ s with stats := { s.stats with duplicates := s.stats.duplicates + 1 } }, Except.ok ())
          else
            let s := { s with seen := s.seen ++ [product_url] }
            match parse_price p.price with
            | none =>
              ({ s with stats := { s.stats with invalid := s.stats.invalid + 1 } }, Except.ok ())
            | some price =>
              if price ≤ 0 then
                ({ s with stats := { s.stats with invalid := s.stats.invalid + 1 } }, Except.ok ())
              else
                match normalize_currency p.currency with
                | none =>
                  ({ s with stats := { s.stats with invalid := s.stats.invalid + 1 } }, Except.ok ())
                | some currency =>
                  if !ALLOWED_CURRENCIES.contains currency then
                    ({ s with stats := { s.stats with invalid := s.stats.invalid + 1 } }, Except.ok ())
                  else if s.stopFlag then
                    (s, Except.error (PyExc.pipelineStop "Stop requested before database save"))
                  else
                    enrichPersist jobId co ctx s p price currency product_url

/-- The for-loop over the scraped products (line 348): an exception from
any iteration unwinds the loop without touching later candidates. -/
def processProducts (jobId : String) (co : Collab) (ctx : UrlCtx) :
    RunState → List RawProduct → RunState × Except PyExc Unit
  | s, [] => (s, Except.ok ())
  | s, p :: ps =>
    match processProduct jobId co ctx s p with
    | (s1, Except.ok _) => processProducts jobId co ctx s1 ps
    | (s1, Except.error e) => (s1, Except.error e)

/-- Embeds scrape_and_process_url (lines 290-673): a stop check before the
try block (its exception propagates), the scrape call, the product loop;
PipelineStopRequested re-raises, any other exception is degraded to an
error-progress report (whose own JobStopRequested, raised inside the
except handler, propagates). -/
def scrape_and_process_url (jobId : String) (co : Collab) (ctx : UrlCtx)
    (s : RunState) : RunState × Except PyExc Unit :=
  if s.stopFlag then (s, Except.error (PyExc.pipelineStop "Stop requested"))
  else
    let inner : RunState × Except PyExc Unit :=
      if s.stopFlag then (s, Except.error (PyExc.pipelineStop "Stop requested before scrape"))
      else
        match co.scrape ctx.url with
        | Except.error m => (s, Except.error (PyExc.other m))
        | Except.ok none => (s, Except.ok ())
        | Except.ok (some products) => processProducts jobId co ctx s products
    match inner with
    | (s1, Except.ok _) => (s1, Except.ok ())
    | (s1, Except.error (PyExc.pipelineStop m)) => (s1, Except.error (PyExc.pipelineStop m))
    | (s1, Except.error _) =>
      match report_progress jobId [("phase", "error")] s1 with
      | (s2, Except.ok _) => (s2, Except.ok ())
      | (s2, Except.error e2) => (s2, Except.error e2)

/-- The recurring driver pattern: try report_progress, and on any
exception return the given early-exit result dict (the bare except-return
blocks of true_streaming_pipeline); otherwise continue. -/
def rpOr (jobId : String) (upd : List (String × String)) (s : RunState)
    (onStop : PipelineResult)
    (k : RunState → RunState × Except PyExc PipelineResult) :
    RunState × Except PyExc PipelineResult :=
  match report_progress jobId upd s with
  | (s1, Except.ok _) => k s1
  | (s1, Except.error _) => (s1, Except.ok onStop)

/-- The try report_progress except-pass pattern: a callback exception is
swallowed (the stop flag was already set by report_progress). -/
def rpPass (jobId : String) (upd : List (String × String)) (s : RunState) : RunState :=
  (report_progress jobId upd s).1

/-- A stopped early-exit dict of the driver (success False, stopped True). -/
def stoppedDict (msg : String) : PipelineResult :=
  { success := false, error := some msg, stopped := true }

/-- Embeds the submission loop (lines 944-972), with the bounded worker
pool sequentialised: each submitted unit runs at its submission point, one
interleaving of the pool. Submission stops once the stop flag is observed
or the url_submitted report raises. -/
def submitLoop (jobId : String) (co : Collab) (partner_id : Nat)
    (start_domain : String) (selected_categories : List String) (total_urls : Nat) :
    List (Nat × String) → RunState → List (Except PyExc Unit) →
    RunState × List (Except PyExc Unit)
  | [], s, futures => (s, futures)
  | (idx, url) :: rest, s, futures =>
    if s.stopFlag then (s, futures)
    else
      match report_progress jobId [("phase", "url_submitted")] s with
      | (s1, Except.error _) => (s1, futures)
      | (s1, Except.ok _) =>
        let (s2, res) := scrape_and_process_url jobId co
          { url := url, partner_id := partner_id, domain := start_domain,
            url_index := idx, total_urls := total_urls,
            selected_categories := selected_categories } s1
        submitLoop jobId co partner_id start_domain selected_categories total_urls
          rest s2 (futures ++ [res])

/-- Embeds the completion loop (lines 986-1039): stop-flag check each
iteration; a normal unit result emits batch progress every five
completions (an exception there sets the flag and breaks);
PipelineStopRequested sets the flag and breaks; any other unit exception
is reported with an except-pass and the loop continues. -/
def completionLoop (jobId : String) :
    List (Except PyExc Unit) → Nat → RunState → RunState
  | [], _, s => s
  | res :: rest, completed, s =>
    if s.stopFlag then s
    else
      let completed := completed + 1
      match res with
      | Except.ok _ =>
        if completed % 5 = 0 then
          match report_progress jobId [("phase", "batch_progress")] s with
          | (s1, Except.ok _) => completionLoop jobId rest completed s1
          | (s1, Except.error _) => s1
        else completionLoop jobId rest completed s
      | Except.error (PyExc.pipelineStop _) => { s with stopFlag := true }
      | Except.error _ =>
        completionLoop jobId rest completed (rpPass jobId [("phase", "worker_error")] s)

/-- The scrape-and-process phase of true_streaming_pipeline (lines
933-1133): workers-starting report, submission and completion loops, and
the stopped or success returns. -/
def pipelineLoop (jobId : String) (co : Collab) (partner_id : Nat)
    (start_domain partner_name : String)
    (selected_categories : Option (List String)) (filtered_urls : List String)
    (s : RunState) : RunState × Except PyExc PipelineResult :=
  rpOr jobId [("phase", "workers_starting")] s (stoppedDict "Stopped before worker start") (fun s =>
  let numbered := filtered_urls.enum.map (fun p => (p.1 + 1, p.2))
  let (s, futures) := submitLoop jobId co partner_id start_domain
    (selected_categories.getD []) filtered_urls.length numbered s []
  let s := rpPass jobId [("phase", "all_urls_submitted")] s
  let s := completionLoop jobId futures 0 s
  if s.stopFlag then
    let s := rpPass jobId [("phase", "stopped")] s
    let res : PipelineResult :=
      { success := false
        stopped := true
        stats := some s.stats
        partner_name := some partner_name }
    (s, Except.ok res)
  else
    let s := rpPass jobId [("phase", "completed")] s
    let res : PipelineResult :=
      { success := true
        stats := some s.stats
        partner_name := some partner_name
        urls_processed := some filtered_urls.length }
    (s, Except.ok res))

/-- The segment of true_streaming_pipeline after a successful discovery
call (lines 853-1133): discovery-complete report, same-TLD filter, and the
Seen-Set and statistics reset before the loops. -/
def pipelineAfterDiscovery (jobId : String) (co : Collab)
    (start_domain start_tld partner_name : String)
    (selected_categories : Option (List String)) (partner_id : Nat)
    (all_urls : List String) (s : RunState) :
    RunState × Except PyExc PipelineResult :=
  rpOr jobId [("phase", "discovery_complete")] s (stoppedDict "Stopped after URL discovery") (fun s =>
  let filtered_urls := all_urls.filter (fun u =>
    (pySplit (pyReplace (urlparse u).netloc "www." "") '.').getLastD "" == start_tld)
  rpOr jobId [("phase", "urls_filtered")] s (stoppedDict "Stopped after URL filtering") (fun s =>
  rpOr jobId [("phase", "scraping")] s (stoppedDict "Stopped before scraping") (fun s =>
  pipelineLoop jobId co partner_id start_domain partner_name selected_categories
    filtered_urls { s with seen := [], stats := {} })))

/-- The tail of true_streaming_pipeline from the partner-ready report on
(the afterPartner segment of lines 822-1133): discovery and its error
return, then the post-discovery segment. -/
def pipelineMain (jobId : String) (co : Collab) (start_domain start_tld partner_name : String)
    (selected_categories : Option (List String)) (partner_id : Nat) (s : RunState) :
    RunState × Except PyExc PipelineResult :=
  rpOr jobId [("phase", "partner_ready")] s (stoppedDict "Stopped after partner setup") (fun s =>
  rpOr jobId [("phase", "discovery")] s (stoppedDict "Stopped before URL discovery") (fun s =>
  match co.mapLinks with
  | Except.error m =>
    let s := rpPass jobId [("phase", "error")] s
    (s, Except.ok { success := false, error := some ("URL discovery failed: " ++ m) })
  | Except.ok all_urls =>
    pipelineAfterDiscovery jobId co start_domain start_tld partner_name
      selected_categories partner_id all_urls s))

/-- Embeds true_streaming_pipeline (lines 678-1133). Every cooperative
stop path returns a result dict (never an exception); the only exceptions
that escape are uncaught collaborator failures (partner lookup) raised
outside a try block. Partner naming, domain filtering, Seen-Set and
statistics initialisation, the submission and completion loops and the
stopped and success returns follow the source; wall-clock durations are
omitted. -/
def true_streaming_pipeline (jobId : String) (co : Collab) (start_url : String)
    (selected_categories : Option (List String)) (s : RunState) :
    RunState × Except PyExc PipelineResult :=
  rpOr jobId [("phase", "starting")] s (stoppedDict "Stopped before start") (fun s =>
  let start_domain := pyReplace (urlparse start_url).netloc "www." ""
  let start_tld := (pySplit start_domain '.').getLastD ""
  rpOr jobId [("phase", "setup")] s (stoppedDict "Stopped during setup") (fun s =>
  rpOr jobId [("phase", "categories")] s (stoppedDict "Stopped during category setup") (fun s =>
  rpOr jobId [("phase", "partner")] s (stoppedDict "Stopped during partner setup") (fun s =>
  let partner_name0 := pyTitle ((pySplit start_domain '.').headD "")
  let partner_name :=
    if pyIn "noon" (pyLower partner_name0) then "Noon"
    else if pyIn "virginmegastore" (pyLower partner_name0) then "Virginmegastore.Ae"
    else if pyIn "jumbo" (pyLower partner_name0) then "Jumbo"
    else if pyIn "mytek" (pyLower partner_name0) then "Mytek"
    else if pyIn "emax" (pyLower partner_name0) then "Emax"
    else partner_name0
  match co.partnerLookup partner_name with
  | Except.error m => (s, Except.error (PyExc.other m))
  | Except.ok found =>
    match found with
    | none =>
      rpOr jobId [("phase", "partner_create")] s (stoppedDict "Stopped during partner creation") (fun s =>
      let partner_id := co.newPartnerId
      let s := { s with partners := s.partners ++ [(partner_id, partner_name)] }
      pipelineMain jobId co start_domain start_tld partner_name selected_categories partner_id s)
    | some partner_id =>
      rpOr jobId [("phase", "partner_found")] s (stoppedDict "Stopped during partner lookup") (fun s =>
      pipelineMain jobId co start_domain start_tld partner_name selected_categories partner_id s)))))

end Pipeline

namespace Worker

/-! ## src/backend/worker.py: the job supervisor -/

/-- The message Python renders for an uncaught exception at worker.py line
61, type name and message; collaborator exception type names are folded
into their message strings. -/
def pyExcMsg : Pipeline.PyExc → String
  | Pipeline.PyExc.pipelineStop m => "PipelineStopRequested: " ++ m
  | Pipeline.PyExc.jobStop => "JobStopRequested: "
  | Pipeline.PyExc.other m => m

/-- Embeds PipelineWorker._run (worker.py lines 38-66): run the pipeline;
on normal return mark the job completed with the result; on
JobStopRequested set status STOPPED with a user-initiated error; on any
other exception mark the job failed. -/
def run (jobId : String) (co : Pipeline.Collab) (start_url : String)
    (categories : Option (List String)) (s : Pipeline.RunState) : Pipeline.RunState :=
  match Pipeline.true_streaming_pipeline jobId co start_url categories s with
  | (s1, Except.ok result) =>
    { s1 with reg := (Backend.mark_completed s1.reg jobId result).1 }
  | (s1, Except.error Pipeline.PyExc.jobStop) =>
    { s1 with reg := (Backend.update_job s1.reg jobId
        { status := some Backend.JobStatus.stopped, error := some "Stopped by user" }).1 }
  | (s1, Except.error e) =>
    { s1 with reg := (Backend.mark_failed s1.reg jobId (pyExcMsg e)).1 }

/-- Embeds PipelineWorker.start_job (lines 20-33): mark the job RUNNING,
then launch _run; the thread handoff is sequentialised. -/
def start_job (jobId : String) (co : Pipeline.Collab) (start_url : String)
    (categories : Option (List String)) (s : Pipeline.RunState) : Pipeline.RunState :=
  let s := { s with reg := (Backend.mark_running s.reg jobId).1 }
  run jobId co start_url categories s

/-- Embeds PipelineWorker.stop_job (lines 35-36). -/
def stop_job (jobId : String) (s : Pipeline.RunState) : Pipeline.RunState :=
  { s with reg := (Backend.request_stop s.reg jobId).1 }

end Worker

namespace Scrapper

/-! ## src/scrapper/Scrapper.py: the asynchronous batched persistence writer

AsyncDatabaseInserter runs one background consumer thread draining a
bounded queue into batches. Records are modelled as opaque identifiers.
The observable state of one inserter is the queue contents, the consumer
batch in progress, the batches already flushed to the store, the stop
event and whether the writer loop has exited. Store inserts are modelled
as succeeding; the per-record retry fallback of _flush_batch is below the
granularity any claim needs. -/

/-- The state of one AsyncDatabaseInserter. -/
structure InserterState where
  queued : List Nat := []
  batch : List Nat := []
  flushed : List (List Nat) := []
  stopped : Bool := false
  writerDone : Bool := false
deriving DecidableEq, Repr

/-- Embeds the _writer_loop drain (Scrapper.py lines 264-287) once the
stop event is set: while the queue is non-empty, dequeue into the batch,
flushing whenever the batch reaches batch_size; on exit perform the final
flush of a pending partial batch. Returns the final flushed batches. -/
def drainLoop (batch_size : Nat) : List Nat → List Nat → List (List Nat) → List (List Nat)
  | [], batch, flushed => if batch.isEmpty then flushed else flushed ++ [batch]
  | q :: qs, batch, flushed =>
    let batch1 := batch ++ [q]
    if batch_size ≤ batch1.length then drainLoop batch_size qs [] (flushed ++ [batch1])
    else drainLoop batch_size qs batch1 flushed

/-- Embeds add_product enqueueing after validation and dedup succeed
(lines 227-262), restricted to the enqueue step the writer claims need. -/
def enqueue (s : InserterState) (rec : Nat) : InserterState :=
  { s with queued := s.queued ++ [rec] }

/-- Embeds close (lines 312-315): set the stop event and join the writer
thread, which then drains the queue and performs its final flush before
exiting. The join is modelled as completing; its 30-second wall-clock cap
is outside the timeless model. If the writer loop already exited, joining
a dead thread changes nothing. -/
def close (batch_size : Nat) (s : InserterState) : InserterState :=
  let s := { s with stopped := true }
  if s.writerDone then s
  else
    { s with
      queued := []
      batch := []
      flushed := drainLoop batch_size s.queued s.batch s.flushed
      writerDone := true }

/-- All records that have reached the store, in flush order. -/
def storeContents (s : InserterState) : List Nat := s.flushed.flatten

end Scrapper

/-! ## Registry operation sequences (for the state-machine claims) -/

namespace Backend

/-- One registry operation, for quantifying over operation sequences. -/
inductive RegOp where
  | createJob (id start_url : String) (cats : Option (List String))
  | markRunning (id : String)
  | markCompleted (id : String) (res : Pipeline.PipelineResult)
  | markFailed (id err : String)
  | requestStop (id : String)
  | updateProgress (id : String) (prog : List (String × String))
deriving Repr

/-- Apply one registry operation, discarding its boolean result. -/
def applyOp (r : Registry) : RegOp → Registry
  | RegOp.createJob id u cats => (create_job r id u cats).1
  | RegOp.markRunning id => (mark_running r id).1
  | RegOp.markCompleted id res => (mark_completed r id res).1
  | RegOp.markFailed id err => (mark_failed r id err).1
  | RegOp.requestStop id => (request_stop r id).1
  | RegOp.updateProgress id prog => (update_progress r id prog).1

/-- Run a sequence of registry operations from the empty registry. -/
def runOps (ops : List RegOp) : Registry :=
  ops.foldl applyOp []

/-- Written from the claim text: the transition direction the spec allows,
PENDING to RUNNING to one of COMPLETED, FAILED, or STOPPING to STOPPED
(staying put is always allowed). To be compared with what applyOp can do. -/
def specAllowedStep (a b : JobStatus) : Bool :=
  a == b ||
  match a, b with
  | JobStatus.pending, JobStatus.running => true
  | JobStatus.running, JobStatus.completed => true
  | JobStatus.running, JobStatus.failed => true
  | JobStatus.running, JobStatus.stopping => true
  | JobStatus.stopping, JobStatus.stopped => true
  | _, _ => false

end Backend

namespace Pipeline

/-- Written from the claim text of C9: a candidate counts as validated
when it passes the name, category-filter, URL, positive-price and
allowed-currency checks. To be compared with the code counters. -/
def specValidated (ctx : UrlCtx) (p : RawProduct) : Bool :=
  p.product_name ≠ "" &&
  match_product_to_selected_categories p.product_name (p.category.getD "")
    ctx.selected_categories &&
  (normalize_url (productUrlRaw ctx p)).isSome &&
  (match parse_price p.price with | some q => decide (0 < q) | none => false) &&
  (match normalize_currency p.currency with
   | some c => ALLOWED_CURRENCIES.contains c
   | none => false)

/-- The validated candidates of a fetched batch, per the claim text. -/
def specValidatedCount (ctx : UrlCtx) (ps : List RawProduct) : Nat :=
  (ps.filter (specValidated ctx)).length

/-- The outcome counters a candidate can be charged to. -/
def outcomeSum (t : Stats) : Nat :=
  t.invalid + t.filtered_out + t.duplicates + t.processed

/-- The outcome counters never grow faster than the scraped counter,
relative across one computation from s0 to s1. -/
def statsBound (s0 s1 : RunState) : Prop :=
  outcomeSum s1.stats + s0.stats.scraped ≤ s1.stats.scraped + outcomeSum s0.stats

/-- The invariant of the exact-accounting run: no stop has been requested,
the run stop flag is clear, and every scraped candidate has been charged
to exactly one outcome counter. -/
def exactState (jobId : String) (s : RunState) : Prop :=
  Backend.should_stop s.reg jobId = false ∧ s.stopFlag = false ∧
  s.stats.scraped = outcomeSum s.stats

end Pipeline

/-! ## Concrete fixtures for the closed evaluation theorems -/

namespace Fix

open Pipeline

/-- Collaborators that fail classification and pricing; discovery yields
nothing, scrape returns no JSON, the partner exists. -/
def coBase : Collab :=
  { mapLinks := Except.ok []
    scrape := fun _ => Except.ok none
    classify := fun _ => Except.error "classifier down"
    price := fun _ => Except.error "pricing down"
    partnerLookup := fun _ => Except.ok (some 1)
    newPartnerId := 1 }

/-- The per-address context for one page of the mytek.tn run. -/
def ctxOne : UrlCtx :=
  { url := "http://mytek.tn/cat"
    partner_id := 1
    domain := "mytek.tn"
    url_index := 1
    total_urls := 1
    selected_categories := [] }

/-- A valid laptop record at the given address. -/
def laptop (n : Nat) (u : String) : RawProduct :=
  { product_name := "Laptop " ++ toString n
    price := PriceField.num 100
    currency := some "AED"
    product_url := some u }

/-- Ten raw candidates of which the second canonicalises identically to
the first (trailing slash only). -/
def tenProducts : List RawProduct :=
  [laptop 1 "http://mytek.tn/p1", laptop 2 "http://mytek.tn/p1/",
   laptop 3 "http://mytek.tn/p3", laptop 4 "http://mytek.tn/p4",
   laptop 5 "http://mytek.tn/p5", laptop 6 "http://mytek.tn/p6",
   laptop 7 "http://mytek.tn/p7", laptop 8 "http://mytek.tn/p8",
   laptop 9 "http://mytek.tn/p9", laptop 10 "http://mytek.tn/p10"]

/-- A classification result declining the record with a reason. -/
def crIneligible : ClassifyResult :=
  { classification := some { eligible := false, reason := some "risk" } }

/-- Collaborators for the dedup run: scrape returns the ten candidates and
classification declines each. -/
def coDedup : Collab :=
  { coBase with
    scrape := fun _ => Except.ok (some tenProducts)
    classify := fun _ => Except.ok crIneligible }

/-- The dedup collaborators with discovery returning the one page, for a
full stop-free run whose classification never raises. -/
def coFullDedup : Collab :=
  { coDedup with mapLinks := Except.ok ["http://mytek.tn/cat"] }

/-- The dedup run of C4: one page, ten raw candidates, two identical up to
a trailing slash. -/
def dedupOut : RunState × Except PyExc Unit :=
  scrape_and_process_url "j" coDedup ctxOne {}

/-- A candidate whose price field is the string Free. -/
def freePriceProduct : RawProduct :=
  { product_name := "Laptop Bag"
    price := PriceField.str "Free"
    currency := some "AED"
    product_url := some "http://x.com/p" }

/-- Processing the Free-priced candidate. -/
def freeOut : RunState × Except PyExc Unit :=
  processProduct "j" coBase ctxOne {} freePriceProduct

/-- A candidate whose price field is the empty string. -/
def emptyPriceProduct : RawProduct :=
  { product_name := "Laptop Case"
    price := PriceField.str ""
    currency := some "AED"
    product_url := some "http://x.com/e" }

/-- Processing the empty-priced candidate. -/
def emptyOut : RunState × Except PyExc Unit :=
  processProduct "j" coBase ctxOne {} emptyPriceProduct

/-- A fully valid candidate priced 1,299.00 AED. -/
def commaProduct : RawProduct :=
  { product_name := "Laptop Pro"
    price := PriceField.str "1,299.00"
    currency := some "AED"
    product_url := some "http://x.com/q" }

/-- Processing the 1,299.00 candidate with a declining classifier. -/
def commaOut : RunState × Except PyExc Unit :=
  processProduct "j" ({ coBase with classify := fun _ => Except.ok crIneligible })
    ctxOne {} commaProduct

/-- A fully valid candidate for the enrichment-failure scenarios. -/
def validProduct : RawProduct :=
  { product_name := "Laptop Pro"
    price := PriceField.num 100
    currency := some "AED"
    product_url := some "http://x.com/q" }

/-- The collaborators whose classification call raises. -/
def coClassifyDown : Collab :=
  { coBase with scrape := fun _ => Except.ok (some [validProduct]) }

/-- One fetch unit in which classification raises on the only candidate. -/
def classifyDownOut : RunState × Except PyExc Unit :=
  scrape_and_process_url "j" coClassifyDown ctxOne {}

/-- The collaborators whose classification accepts but whose pricing call
raises. -/
def coPricingDown : Collab :=
  { coBase with
    scrape := fun _ => Except.ok (some [validProduct])
    classify := fun _ => Except.ok
      { classification := some { eligible := true, risk_profile := some "ELECTRONICS" } } }

/-- One fetch unit in which pricing raises on the only candidate. -/
def pricingDownOut : RunState × Except PyExc Unit :=
  scrape_and_process_url "j" coPricingDown ctxOne {}

/-- A full classification-failure pipeline run: discovery yields the one
page, scrape yields the one valid candidate, classification raises. -/
def coFullClassifyDown : Collab :=
  { coClassifyDown with mapLinks := Except.ok ["http://mytek.tn/cat"] }

/-- The full run for the C9 counterexample. -/
def fullClassifyDownOut : RunState × Except PyExc PipelineResult :=
  true_streaming_pipeline "j" coFullClassifyDown "http://mytek.tn" none
    { reg := (Backend.create_job [] "j" "http://mytek.tn" none).1 }

/-- Registry after create. -/
def regA : Backend.Registry := (Backend.create_job [] "j2" "http://x.com" none).1

/-- Registry after create and markRunning. -/
def regB : Backend.Registry := (Backend.mark_running regA "j2").1

/-- Registry after create, markRunning and requestStop: the job is
STOPPING. -/
def regC : Backend.Registry := (Backend.request_stop regB "j2").1

/-- Registry after a markCompleted on the STOPPING job. -/
def regD : Backend.Registry :=
  (Backend.mark_completed regC "j2" { success := true }).1

/-- The C1 scenario: a job created and marked RUNNING whose stop is
requested before the pipeline reports progress. -/
def stopRequestedState : RunState :=
  Worker.stop_job "j"
    { reg := (Backend.mark_running
        ((Backend.create_job [] "j" "http://mytek.tn" none).1) "j").1 }

/-- The final state of the C1 scenario after the worker runs the job. -/
def stopRunFinal : RunState :=
  Worker.run "j" coBase "http://mytek.tn" none stopRequestedState

/-- The job record stored in regB: created, then marked RUNNING. -/
def jobRunning : Backend.Job :=
  { job_id := "j2"
    start_url := "http://x.com"
    selected_categories := []
    status := Backend.JobStatus.running
    progress := [] }

/-- The job record stored in regC: stop requested while RUNNING. -/
def jobStopping : Backend.Job :=
  { jobRunning with
    status := Backend.JobStatus.stopping
    stop_requested := true }

/-- A mid-run batched-writer state: one batch already flushed, a partial
batch pending, three records still queued, writer alive. -/
def wInserter : Scrapper.InserterState :=
  { queued := [3, 4, 5]
    batch := [2]
    flushed := [[0, 1]] }

/-- The registry operation sequence of the C2 counterexample: create,
mark running, request stop. -/
def cexOps : List Backend.RegOp :=
  [Backend.RegOp.createJob "j2" "http://x.com" none,
   Backend.RegOp.markRunning "j2",
   Backend.RegOp.requestStop "j2"]

/-- The same sequence followed by markCompleted on the STOPPING job. -/
def cexOps4 : List Backend.RegOp :=
  cexOps ++ [Backend.RegOp.markCompleted "j2" { success := true }]

end Fix

/-! # Helper lemmas -/

namespace Backend

/-- find? commutes with a key-preserving map over the registry list. -/
theorem find?_map_keyKeep (f : String × Job → String × Job)
    (hf : ∀ p, (f p).1 = p.1) (r : List (String × Job)) (id : String) :
    List.find? (fun p => p.1 == id) (r.map f) =
      (List.find? (fun p => p.1 == id) r).map f := by
  induction r with
  | nil => rfl
  | cons hd tl ih =>
    simp only [List.map_cons, List.find?_cons, hf hd]
    by_cases hk : (hd.1 == id) = true <;> simp [hk, ih]

/-- Reading after a write-back: the written job is seen under its own key
and nothing else changes. -/
theorem get_job_setJob (r : Registry) (id id2 : String) (v : Job) :
    get_job (setJob r id v) id2 =
      (get_job r id2).map (fun old => if id2 = id then v else old) := by
  unfold get_job setJob
  rw [find?_map_keyKeep _ (fun p => by by_cases h : (p.1 == id) = true <;> simp [h])]
  rcases hf : List.find? (fun p => p.1 == id2) r with _ | p
  · rw [hf]; rfl
  · rw [hf]
    have hp := List.find?_some hf
    simp only [beq_iff_eq] at hp
    by_cases h : id2 = id
    · subst h; simp [hp]
    · simp [hp, h]

/-- Appending entries does not shadow an existing job. -/
theorem get_job_append (r l : Registry) (id : String) (j : Job)
    (h : get_job r id = some j) : get_job (r ++ l) id = some j := by
  unfold get_job at *
  rw [List.find?_append]
  rcases hf : List.find? (fun p => p.1 == id) r with _ | v
  · rw [hf] at h; simp at h
  · rw [hf] at h; simp_all [Option.or]

/-- Progress merging never changes any stop flag. -/
theorem should_stop_update_progress (r : Registry) (id id2 : String)
    (u : List (String × String)) :
    should_stop ((update_progress r id u).1) id2 = should_stop r id2 := by
  unfold update_progress should_stop
  rcases hg : get_job r id with _ | j
  · rfl
  · simp only [get_job_setJob]
    rcases hg2 : get_job r id2 with _ | j2 <;> by_cases h : id2 = id <;> simp_all

end Backend

namespace Scrapper

/-- Everything handed to the drain loop ends up flushed, in order. -/
theorem drainLoop_flatten (bs : Nat) (q b : List Nat) (f : List (List Nat)) :
    (drainLoop bs q b f).flatten = f.flatten ++ b ++ q := by
  induction q generalizing b f with
  | nil =>
    by_cases hb : b.isEmpty <;>
      simp_all [drainLoop, List.isEmpty_iff]
  | cons x xs ih =>
    by_cases hb : bs ≤ b.length + 1 <;>
      simp [drainLoop, hb, ih, List.append_assoc]

end Scrapper

namespace Pipeline

/-- With no stop pending, report_progress merges the update and returns
normally. -/
theorem report_progress_of_not_stop (jobId : String) (u : List (String × String))
    (s : RunState) (h : Backend.should_stop s.reg jobId = false) :
    report_progress jobId u s =
      ({ s with reg := (Backend.update_progress s.reg jobId u).1 }, Except.ok ()) := by
  unfold report_progress progress_cb
  simp [h]

/-- Progress reporting never touches the statistics. -/
theorem report_progress_stats (jobId : String) (u : List (String × String))
    (s : RunState) : ((report_progress jobId u s).1).stats = s.stats := by
  unfold report_progress progress_cb
  by_cases h : Backend.should_stop s.reg jobId = true <;> simp [h]

/-- Progress reporting never touches the Seen-Set. -/
theorem report_progress_seen (jobId : String) (u : List (String × String))
    (s : RunState) : ((report_progress jobId u s).1).seen = s.seen := by
  unfold report_progress progress_cb
  by_cases h : Backend.should_stop s.reg jobId = true <;> simp [h]

/-- Progress reporting never touches the product store. -/
theorem report_progress_products (jobId : String) (u : List (String × String))
    (s : RunState) : ((report_progress jobId u s).1).products = s.products := by
  unfold report_progress progress_cb
  by_cases h : Backend.should_stop s.reg jobId = true <;> simp [h]

/-- Progress reporting never touches the package store. -/
theorem report_progress_packages (jobId : String) (u : List (String × String))
    (s : RunState) : ((report_progress jobId u s).1).packages = s.packages := by
  unfold report_progress progress_cb
  by_cases h : Backend.should_stop s.reg jobId = true <;> simp [h]

/-- Progress reporting never changes any job stop flag. -/
theorem report_progress_should_stop (jobId : String) (u : List (String × String))
    (s : RunState) (id2 : String) :
    Backend.should_stop ((report_progress jobId u s).1).reg id2
      = Backend.should_stop s.reg id2 := by
  unfold report_progress progress_cb
  by_cases h : Backend.should_stop s.reg jobId = true <;>
    simp [h, Backend.should_stop_update_progress]

/-- The except-pass progress call never touches the statistics. -/
theorem rpPass_stats (jobId : String) (u : List (String × String))
    (s : RunState) : (rpPass jobId u s).stats = s.stats :=
  report_progress_stats jobId u s

/-- With no stop pending the rpOr pattern always continues. -/
theorem rpOr_of_not_stop (jobId : String) (u : List (String × String))
    (s : RunState) (d : PipelineResult)
    (k : RunState → RunState × Except PyExc PipelineResult)
    (h : Backend.should_stop s.reg jobId = false) :
    rpOr jobId u s d k = k { s with reg := (Backend.update_progress s.reg jobId u).1 } := by
  unfold rpOr
  rw [report_progress_of_not_stop _ _ _ h]

/-- With no stop pending the except-pass progress call just merges. -/
theorem rpPass_of_not_stop (jobId : String) (u : List (String × String))
    (s : RunState) (h : Backend.should_stop s.reg jobId = false) :
    rpPass jobId u s = { s with reg := (Backend.update_progress s.reg jobId u).1 } := by
  unfold rpPass
  rw [report_progress_of_not_stop _ _ _ h]

/-- When every pricing call raises, the pricing try block degrades the
response to ineligible with the Pricing-failed reason, whatever the
market, value and category route taken. -/
theorem pricingPhase_error (co : Collab) (response : Response)
    (rp : Option String) (v : ℚ) (market crc : String) (m : String)
    (hpr : ∀ q, co.price q = Except.error m) :
    pricingPhase co false response rp v market crc
      = { response with
          eligible := false
          reason := some ("Pricing failed: " ++ m) } := by
  simp only [pricingPhase, hpr]

/-- The enrichment step never touches the Seen-Set. -/
theorem enrichPersist_seen (jobId : String) (co : Collab) (ctx : UrlCtx)
    (s : RunState) (p : RawProduct) (price : ℚ) (currency url : String) :
    ((enrichPersist jobId co ctx s p price currency url).1).seen = s.seen := by
  simp only [enrichPersist]
  repeat' split
  all_goals
    simp [create_insurance_package, markProductCompleted, report_progress_seen]

/-- Marking a fresh pid completed leaves the statuses of all previously
stored products unchanged. -/
theorem map_status_setCompleted (l : List StoredProduct) (pid : Nat)
    (hl : ∀ pr ∈ l, pr.pid ≠ pid) :
    (l.map (fun pr => if pr.pid == pid
        then { pr with processing_status := "completed" } else pr)).map
      (fun pr => pr.processing_status)
      = l.map (fun pr => pr.processing_status) := by
  induction l with
  | nil => rfl
  | cons hd tl ih =>
    have hhd : (hd.pid == pid) = false := by
      simp [hl hd (List.mem_cons_self hd tl)]
    simp only [List.map_cons, hhd, Bool.false_eq_true, if_false]
    rw [ih (fun pr hpr => hl pr (List.mem_cons_of_mem hd hpr))]

/-- One loop iteration charges at most one outcome counter and only along
with the scraped counter. -/
theorem processProduct_bound (jobId : String) (co : Collab) (ctx : UrlCtx)
    (s : RunState) (p : RawProduct) :
    outcomeSum ((processProduct jobId co ctx s p).1).stats + s.stats.scraped ≤
      ((processProduct jobId co ctx s p).1).stats.scraped + outcomeSum s.stats := by
  simp only [processProduct]
  repeat' split
  all_goals try (simp [outcomeSum]; omega)
  all_goals simp only [enrichPersist]
  all_goals repeat' split
  all_goals
    simp [outcomeSum, create_insurance_package, markProductCompleted,
      report_progress_stats]
  all_goals omega

/-- The per-unit product loop keeps the outcome counters below the
scraped counter. -/
theorem processProducts_bound (jobId : String) (co : Collab) (ctx : UrlCtx)
    (ps : List RawProduct) : ∀ (s : RunState),
    outcomeSum ((processProducts jobId co ctx s ps).1).stats + s.stats.scraped ≤
      ((processProducts jobId co ctx s ps).1).stats.scraped + outcomeSum s.stats := by
  induction ps with
  | nil => intro s; simp only [processProducts]; omega
  | cons p ps ih =>
    intro s
    have h1 := processProduct_bound jobId co ctx s p
    simp only [processProducts]
    rcases hp : processProduct jobId co ctx s p with ⟨s1, r⟩
    rw [hp] at h1
    dsimp only at h1 ⊢
    cases r with
    | ok u =>
      have h2 := ih s1
      dsimp only
      omega
    | error e =>
      dsimp only
      omega

/-- One fetch unit keeps the outcome counters below the scraped counter. -/
theorem scrape_bound (jobId : String) (co : Collab) (ctx : UrlCtx) (s : RunState) :
    outcomeSum ((scrape_and_process_url jobId co ctx s).1).stats + s.stats.scraped ≤
      ((scrape_and_process_url jobId co ctx s).1).stats.scraped + outcomeSum s.stats := by
  simp only [scrape_and_process_url]
  by_cases h0 : s.stopFlag = true
  · simp only [h0, if_true]
    omega
  · simp only [h0, Bool.false_eq_true, if_false]
    rcases hs : co.scrape ctx.url with m | op
    · simp only [hs]
      rcases hr : report_progress jobId [("phase", "error")] s with ⟨s2, r2⟩
      have h2 := report_progress_stats jobId [("phase", "error")] s
      rw [hr] at h2
      cases r2 <;> (try dsimp only at h2 ⊢) <;> rw [h2] <;> omega
    · cases op with
      | none =>
        simp only [hs]
        omega
      | some ps =>
        simp only [hs]
        have h1 := processProducts_bound jobId co ctx ps s
        rcases hp : processProducts jobId co ctx s ps with ⟨s1, r⟩
        rw [hp] at h1
        dsimp only at h1
        cases r with
        | ok u =>
          dsimp only
          omega
        | error e =>
          cases e with
          | pipelineStop m =>
            dsimp only
            omega
          | jobStop =>
            dsimp only
            rcases hr : report_progress jobId [("phase", "error")] s1 with ⟨s2, r2⟩
            have h2 := report_progress_stats jobId [("phase", "error")] s1
            rw [hr] at h2
            cases r2 <;> (try dsimp only at h2 ⊢) <;> rw [h2] <;> omega
          | other m =>
            dsimp only
            rcases hr : report_progress jobId [("phase", "error")] s1 with ⟨s2, r2⟩
            have h2 := report_progress_stats jobId [("phase", "error")] s1
            rw [hr] at h2
            cases r2 <;> (try dsimp only at h2 ⊢) <;> rw [h2] <;> omega

/-- The submission loop keeps the outcome counters below the scraped
counter. -/
theorem submitLoop_bound (jobId : String) (co : Collab) (pid : Nat)
    (dom : String) (cats : List String) (tot : Nat)
    (urls : List (Nat × String)) :
    ∀ (s : RunState) (futures : List (Except PyExc Unit)),
    outcomeSum ((submitLoop jobId co pid dom cats tot urls s futures).1).stats
        + s.stats.scraped ≤
      ((submitLoop jobId co pid dom cats tot urls s futures).1).stats.scraped
        + outcomeSum s.stats := by
  induction urls with
  | nil => intro s futures; simp only [submitLoop]; omega
  | cons u rest ih =>
    intro s futures
    rcases u with ⟨idx, url⟩
    simp only [submitLoop]
    by_cases h0 : s.stopFlag = true
    · simp only [h0, if_true]
      omega
    · simp only [h0, Bool.false_eq_true, if_false]
      rcases hr : report_progress jobId [("phase", "url_submitted")] s with ⟨s1, r1⟩
      have h2 := report_progress_stats jobId [("phase", "url_submitted")] s
      rw [hr] at h2
      dsimp only at h2
      cases r1 with
      | error e =>
        dsimp only
        rw [h2]
        omega
      | ok u =>
        dsimp only
        have h3 := scrape_bound jobId co
          { url := url, partner_id := pid, domain := dom, url_index := idx,
            total_urls := tot, selected_categories := cats } s1
        rcases hsc : scrape_and_process_url jobId co
          { url := url, partner_id := pid, domain := dom, url_index := idx,
            total_urls := tot, selected_categories := cats } s1 with ⟨s2, res⟩
        rw [hsc] at h3
        dsimp only at h3 ⊢
        have h4 := ih s2 (futures ++ [res])
        rw [h2] at h3
        omega

/-- The completion loop never touches the statistics. -/
theorem completionLoop_stats (jobId : String) (l : List (Except PyExc Unit)) :
    ∀ (n : Nat) (s : RunState), (completionLoop jobId l n s).stats = s.stats := by
  induction l with
  | nil => intro n s; rfl
  | cons r rest ih =>
    intro n s
    simp only [completionLoop]
    by_cases h0 : s.stopFlag = true
    · simp [h0]
    · simp only [h0, Bool.false_eq_true, if_false]
      cases r with
      | ok u =>
        by_cases h5 : (n + 1) % 5 = 0
        · simp only [h5, if_pos rfl, if_true]
          rcases hr : report_progress jobId [("phase", "batch_progress")] s with ⟨s1, r1⟩
          have h2 := report_progress_stats jobId [("phase", "batch_progress")] s
          rw [hr] at h2
          dsimp only at h2
          cases r1 with
          | ok u2 =>
            dsimp only
            rw [ih _ _, h2]
          | error e =>
            dsimp only
            exact h2
        · simp only [if_neg h5]
          try dsimp only
          exact ih _ _
      | error e =>
        cases e with
        | pipelineStop m =>
          try dsimp only
          try rfl
        | jobStop =>
          try dsimp only
          rw [ih _ _, rpPass_stats]
        | other m =>
          try dsimp only
          rw [ih _ _, rpPass_stats]

/-- rpOr preserves any outcome bound established relative to states with
the same statistics. -/
theorem rpOr_bound (jobId : String) (u : List (String × String)) (s : RunState)
    (d : PipelineResult) (k : RunState → RunState × Except PyExc PipelineResult)
    (hk : ∀ s1, s1.stats = s.stats →
      outcomeSum ((k s1).1).stats ≤
        ((k s1).1).stats.scraped + outcomeSum s.stats) :
    outcomeSum ((rpOr jobId u s d k).1).stats ≤
      ((rpOr jobId u s d k).1).stats.scraped + outcomeSum s.stats := by
  unfold rpOr
  rcases hr : report_progress jobId u s with ⟨s1, r1⟩
  have h2 := report_progress_stats jobId u s
  rw [hr] at h2
  dsimp only at h2
  cases r1 with
  | ok u2 =>
    dsimp only
    exact hk s1 h2
  | error e =>
    dsimp only
    rw [h2]
    omega

/-- The scrape-and-process phase keeps the outcome counters below the
scraped counter plus whatever the entry statistics already held. -/
theorem pipelineLoop_bound (jobId : String) (co : Collab) (pid : Nat)
    (dom pname : String) (cats : Option (List String)) (urls : List String)
    (s : RunState) :
    outcomeSum ((pipelineLoop jobId co pid dom pname cats urls s).1).stats ≤
      ((pipelineLoop jobId co pid dom pname cats urls s).1).stats.scraped
        + outcomeSum s.stats := by
  simp only [pipelineLoop]
  apply rpOr_bound
  intro s1 h1
  try simp only []
  have hb := submitLoop_bound jobId co pid dom (cats.getD []) urls.length
    (urls.enum.map (fun p => (p.1 + 1, p.2))) s1 []
  rcases hsub : submitLoop jobId co pid dom (cats.getD []) urls.length
    (urls.enum.map (fun p => (p.1 + 1, p.2))) s1 [] with ⟨s2, futures⟩
  rw [hsub] at hb
  dsimp only at hb
  try rw [hsub]
  try simp only []
  rw [h1] at hb
  by_cases hf : (completionLoop jobId futures 0
      (rpPass jobId [("phase", "all_urls_submitted")] s2)).stopFlag = true
  · simp only [hf, if_true, rpPass_stats, completionLoop_stats]
    omega
  · simp only [hf, Bool.false_eq_true, if_false, rpPass_stats, completionLoop_stats]
    omega

/-- The post-discovery segment keeps the outcome counters below the
scraped counter plus whatever the entry statistics already held. -/
theorem pipelineAfterDiscovery_bound (jobId : String) (co : Collab)
    (dom tld pname : String) (cats : Option (List String)) (pid : Nat)
    (all_urls : List String) (s : RunState) :
    outcomeSum ((pipelineAfterDiscovery jobId co dom tld pname cats pid all_urls s).1).stats ≤
      ((pipelineAfterDiscovery jobId co dom tld pname cats pid all_urls s).1).stats.scraped
        + outcomeSum s.stats := by
  simp only [pipelineAfterDiscovery]
  apply rpOr_bound
  intro s1 h1
  rw [← h1]
  try simp only []
  apply rpOr_bound
  intro s2 h2
  rw [← h2]
  try simp only []
  apply rpOr_bound
  intro s3 h3
  try simp only []
  have hz := pipelineLoop_bound jobId co pid dom pname cats
    (all_urls.filter (fun u =>
      (pySplit (pyReplace (urlparse u).netloc "www." "") '.').getLastD "" == tld))
    { s3 with seen := [], stats := {} }
  have hzero : outcomeSum ({ s3 with seen := [], stats := {} } : RunState).stats = 0 := by
    simp [outcomeSum]
  rw [hzero] at hz
  omega

/-- The pipeline tail keeps the outcome counters below the scraped
counter plus whatever the entry statistics already held. -/
theorem pipelineMain_bound (jobId : String) (co : Collab)
    (dom tld pname : String) (cats : Option (List String)) (pid : Nat)
    (s : RunState) :
    outcomeSum ((pipelineMain jobId co dom tld pname cats pid s).1).stats ≤
      ((pipelineMain jobId co dom tld pname cats pid s).1).stats.scraped
        + outcomeSum s.stats := by
  simp only [pipelineMain]
  apply rpOr_bound
  intro s1 h1
  rw [← h1]
  try simp only []
  apply rpOr_bound
  intro s2 h2
  try simp only []
  rcases co.mapLinks with m | all_urls
  · simp only [rpPass_stats, h2]
    omega
  · try simp only []
    have hm := pipelineAfterDiscovery_bound jobId co dom tld pname cats pid all_urls s2
    rw [h2] at hm
    exact hm

/-- The whole pipeline keeps the outcome counters below the scraped
counter plus whatever the entry statistics already held. -/
theorem pipeline_bound (jobId : String) (co : Collab) (start_url : String)
    (cats : Option (List String)) (s : RunState) :
    outcomeSum ((true_streaming_pipeline jobId co start_url cats s).1).stats ≤
      ((true_streaming_pipeline jobId co start_url cats s).1).stats.scraped
        + outcomeSum s.stats := by
  simp only [true_streaming_pipeline]
  apply rpOr_bound
  intro s1 h1
  rw [← h1]
  try simp only []
  apply rpOr_bound
  intro s2 h2
  rw [← h2]
  try simp only []
  apply rpOr_bound
  intro s3 h3
  rw [← h3]
  try simp only []
  apply rpOr_bound
  intro s4 h4
  try simp only []
  split
  · dsimp only
    rw [h4]
    omega
  · split
    · rw [← h4]
      apply rpOr_bound
      intro s5 h5
      try simp only []
      refine le_trans (pipelineMain_bound _ _ _ _ _ _ _ _) ?_
      dsimp only
      rw [h5]
    · rw [← h4]
      apply rpOr_bound
      intro s5 h5
      rw [← h5]
      try simp only []
      exact pipelineMain_bound _ _ _ _ _ _ _ _

/-- Progress merging preserves the exact-accounting invariant. -/
theorem exactState_update_progress (jobId : String) (u : List (String × String))
    (s : RunState) (hx : exactState jobId s) :
    exactState jobId { s with reg := (Backend.update_progress s.reg jobId u).1 } := by
  obtain ⟨h1, h2, h3⟩ := hx
  exact ⟨by simpa [Backend.should_stop_update_progress] using h1, h2, h3⟩

/-- One loop iteration under a raise-free classifier and no stop returns
normally and preserves the exact-accounting invariant. -/
theorem processProduct_exact (jobId : String) (co : Collab) (ctx : UrlCtx)
    (s : RunState) (p : RawProduct)
    (hcl : ∀ q m, co.classify q ≠ Except.error m)
    (hx : exactState jobId s) :
    (processProduct jobId co ctx s p).2 = Except.ok () ∧
    exactState jobId ((processProduct jobId co ctx s p).1) := by
  obtain ⟨hstop, hflag, heq⟩ := hx
  simp only [processProduct]
  repeat' split
  all_goals try (simp_all [exactState, outcomeSum]; omega)
  all_goals simp only [enrichPersist]
  all_goals repeat' split
  all_goals try (exact absurd (by assumption) (hcl _ _))
  all_goals
    try rw [report_progress_of_not_stop _ _ _ (by simpa using hstop)]
  all_goals
    simp_all [exactState, outcomeSum, create_insurance_package,
      markProductCompleted, Backend.should_stop_update_progress]
  all_goals omega

/-- The product loop under a raise-free classifier and no stop returns
normally and preserves the exact-accounting invariant. -/
theorem processProducts_exact (jobId : String) (co : Collab) (ctx : UrlCtx)
    (hcl : ∀ q m, co.classify q ≠ Except.error m) (ps : List RawProduct) :
    ∀ (s : RunState), exactState jobId s →
    (processProducts jobId co ctx s ps).2 = Except.ok () ∧
    exactState jobId ((processProducts jobId co ctx s ps).1) := by
  induction ps with
  | nil => intro s hx; exact ⟨rfl, hx⟩
  | cons p ps ih =>
    intro s hx
    have h1 := processProduct_exact jobId co ctx s p hcl hx
    simp only [processProducts]
    rcases hp : processProduct jobId co ctx s p with ⟨s1, r⟩
    rw [hp] at h1
    dsimp only at h1
    obtain ⟨hr, hx1⟩ := h1
    subst hr
    dsimp only
    exact ih s1 hx1

/-- One fetch unit under a raise-free classifier and no stop returns
normally and preserves the exact-accounting invariant. -/
theorem scrape_exact (jobId : String) (co : Collab) (ctx : UrlCtx) (s : RunState)
    (hcl : ∀ q m, co.classify q ≠ Except.error m)
    (hx : exactState jobId s) :
    (scrape_and_process_url jobId co ctx s).2 = Except.ok () ∧
    exactState jobId ((scrape_and_process_url jobId co ctx s).1) := by
  obtain ⟨hstop, hflag, heq⟩ := hx
  simp only [scrape_and_process_url, hflag, Bool.false_eq_true, if_false]
  rcases hs : co.scrape ctx.url with m | op
  · simp only [hs]
    rw [report_progress_of_not_stop _ _ _ hstop]
    dsimp only
    exact ⟨rfl, by simpa [Backend.should_stop_update_progress] using hstop, hflag, heq⟩
  · cases op with
    | none =>
      simp only [hs]
      exact ⟨by trivial, hstop, hflag, heq⟩
    | some ps =>
      simp only [hs]
      have h1 := processProducts_exact jobId co ctx hcl ps s ⟨hstop, hflag, heq⟩
      rcases hp : processProducts jobId co ctx s ps with ⟨s1, r⟩
      rw [hp] at h1
      dsimp only at h1
      obtain ⟨hr, hx1⟩ := h1
      subst hr
      dsimp only
      exact ⟨rfl, hx1⟩

/-- The submission loop under a raise-free classifier and no stop keeps
the invariant and produces only normal unit results. -/
theorem submitLoop_exact (jobId : String) (co : Collab) (pid : Nat)
    (dom : String) (cats : List String) (tot : Nat)
    (hcl : ∀ q m, co.classify q ≠ Except.error m)
    (urls : List (Nat × String)) :
    ∀ (s : RunState) (futures : List (Except PyExc Unit)),
      exactState jobId s → (∀ r ∈ futures, r = Except.ok ()) →
    exactState jobId ((submitLoop jobId co pid dom cats tot urls s futures).1) ∧
    (∀ r ∈ (submitLoop jobId co pid dom cats tot urls s futures).2,
      r = Except.ok ()) := by
  induction urls with
  | nil => intro s futures hx hf; exact ⟨hx, hf⟩
  | cons u rest ih =>
    intro s futures hx hf
    have hx0 := hx
    obtain ⟨hstop, hflag, heq⟩ := hx
    rcases u with ⟨idx, url⟩
    simp only [submitLoop, hflag, Bool.false_eq_true, if_false]
    rw [report_progress_of_not_stop _ _ _ hstop]
    dsimp only
    have hx1 := exactState_update_progress jobId
      [("phase", "url_submitted")] s hx0
    generalize hS : ({ s with
      reg := (Backend.update_progress s.reg jobId [("phase", "url_submitted")]).1 }
        : RunState) = sA at hx1 ⊢
    have h2 := scrape_exact jobId co
      { url := url, partner_id := pid, domain := dom, url_index := idx,
        total_urls := tot, selected_categories := cats } sA hcl hx1
    rcases hsc : scrape_and_process_url jobId co
      { url := url, partner_id := pid, domain := dom, url_index := idx,
        total_urls := tot, selected_categories := cats } sA with ⟨s2, res⟩
    rw [hsc] at h2
    dsimp only at h2
    obtain ⟨hres, hx2⟩ := h2
    subst hres
    dsimp only
    refine ih s2 (futures ++ [Except.ok ()]) hx2 ?_
    intro r hr
    rcases List.mem_append.mp hr with h | h
    · exact hf r h
    · simpa using h

/-- The completion loop under no stop and normal unit results changes only
the registry progress. -/
theorem completionLoop_exact (jobId : String) (l : List (Except PyExc Unit)) :
    ∀ (n : Nat) (s : RunState),
      Backend.should_stop s.reg jobId = false → s.stopFlag = false →
      (∀ r ∈ l, r = Except.ok ()) →
    (completionLoop jobId l n s).stopFlag = false ∧
    Backend.should_stop (completionLoop jobId l n s).reg jobId = false ∧
    (completionLoop jobId l n s).stats = s.stats := by
  induction l with
  | nil => intro n s h1 h2 h3; exact ⟨h2, h1, rfl⟩
  | cons r rest ih =>
    intro n s h1 h2 h3
    have hr : r = Except.ok () := h3 r (List.mem_cons_self r rest)
    subst hr
    simp only [completionLoop, h2, Bool.false_eq_true, if_false]
    have hrest : ∀ x ∈ rest, x = Except.ok () :=
      fun x hx => h3 x (List.mem_cons_of_mem _ hx)
    by_cases h5 : (n + 1) % 5 = 0
    · simp only [if_pos h5]
      rw [report_progress_of_not_stop _ _ _ h1]
      dsimp only
      have hnext := ih (n + 1)
        { s with reg := (Backend.update_progress s.reg jobId
            [("phase", "batch_progress")]).1 }
        (by simpa [Backend.should_stop_update_progress] using h1) h2 hrest
      exact ⟨hnext.1, hnext.2.1, by rw [hnext.2.2]⟩
    · simp only [if_neg h5]
      exact ih (n + 1) s h1 h2 hrest

/-- The scrape-and-process phase under a raise-free classifier and no
stop ends with every scraped candidate charged to exactly one outcome
counter. -/
theorem pipelineLoop_exact (jobId : String) (co : Collab) (pid : Nat)
    (dom pname : String) (cats : Option (List String)) (urls : List String)
    (s : RunState)
    (hcl : ∀ q m, co.classify q ≠ Except.error m)
    (hx : exactState jobId s) :
    ((pipelineLoop jobId co pid dom pname cats urls s).1).stats.scraped
      = outcomeSum ((pipelineLoop jobId co pid dom pname cats urls s).1).stats := by
  obtain ⟨hstop, hflag, heq⟩ := hx
  simp only [pipelineLoop]
  rw [rpOr_of_not_stop _ _ _ _ _ hstop]
  try simp only []
  have hx1 : exactState jobId { s with
      reg := (Backend.update_progress s.reg jobId
        [("phase", "workers_starting")]).1 } :=
    ⟨by simpa [Backend.should_stop_update_progress] using hstop,
     by simpa using hflag, by simpa using heq⟩
  have hsub := submitLoop_exact jobId co pid dom (cats.getD []) urls.length hcl
    (urls.enum.map (fun p => (p.1 + 1, p.2)))
    { s with reg := (Backend.update_progress s.reg jobId
        [("phase", "workers_starting")]).1 } [] hx1
    (by intro r hr; simp at hr)
  rcases hsl : submitLoop jobId co pid dom (cats.getD []) urls.length
    (urls.enum.map (fun p => (p.1 + 1, p.2)))
    { s with reg := (Backend.update_progress s.reg jobId
        [("phase", "workers_starting")]).1 } [] with ⟨s2, futures⟩
  rw [hsl] at hsub
  dsimp only at hsub
  obtain ⟨⟨hstop2, hflag2, heq2⟩, hfut⟩ := hsub
  try rw [hsl]
  try dsimp only
  try simp only []
  rw [rpPass_of_not_stop _ _ _ hstop2]
  have hcomp := completionLoop_exact jobId futures 0
    { s2 with reg := (Backend.update_progress s2.reg jobId
        [("phase", "all_urls_submitted")]).1 }
    (by simpa [Backend.should_stop_update_progress] using hstop2)
    (by simpa using hflag2) hfut
  generalize hS3 : completionLoop jobId futures 0
    { s2 with reg := (Backend.update_progress s2.reg jobId
        [("phase", "all_urls_submitted")]).1 } = s3 at hcomp ⊢
  obtain ⟨hflag3, hstop3, hstats3⟩ := hcomp
  simp only [hflag3, Bool.false_eq_true, if_false]
  simp only [rpPass_stats]
  rw [hstats3]
  simpa using heq2

/-- The post-discovery segment under a raise-free classifier and no stop
ends with every scraped candidate charged to exactly one outcome
counter. -/
theorem pipelineAfterDiscovery_exact (jobId : String) (co : Collab)
    (dom tld pname : String) (cats : Option (List String)) (pid : Nat)
    (all_urls : List String) (s : RunState)
    (hcl : ∀ q m, co.classify q ≠ Except.error m)
    (hx : exactState jobId s) :
    ((pipelineAfterDiscovery jobId co dom tld pname cats pid all_urls s).1).stats.scraped
      = outcomeSum
        ((pipelineAfterDiscovery jobId co dom tld pname cats pid all_urls s).1).stats := by
  obtain ⟨hstop, hflag, heq⟩ := hx
  simp only [pipelineAfterDiscovery]
  rw [rpOr_of_not_stop _ _ _ _ _ hstop]
  try simp only []
  have hstop1 : Backend.should_stop
      (Backend.update_progress s.reg jobId [("phase", "discovery_complete")]).1
        jobId = false := by
    simp only [Backend.should_stop_update_progress]; exact hstop
  rw [rpOr_of_not_stop _ _ _ _ _ hstop1]
  try simp only []
  have hstop2 : Backend.should_stop
      (Backend.update_progress (Backend.update_progress s.reg jobId
        [("phase", "discovery_complete")]).1 jobId [("phase", "urls_filtered")]).1
        jobId = false := by
    simp only [Backend.should_stop_update_progress]; exact hstop
  rw [rpOr_of_not_stop _ _ _ _ _ hstop2]
  try simp only []
  exact pipelineLoop_exact _ _ _ _ _ _ _ _ hcl
    ⟨by simpa [Backend.should_stop_update_progress] using hstop,
     by simpa using hflag, by simp [outcomeSum]⟩

/-- The pipeline tail under a raise-free classifier and no stop ends with
every scraped candidate charged to exactly one outcome counter. -/
theorem pipelineMain_exact (jobId : String) (co : Collab)
    (dom tld pname : String) (cats : Option (List String)) (pid : Nat)
    (s : RunState)
    (hcl : ∀ q m, co.classify q ≠ Except.error m)
    (hx : exactState jobId s) :
    ((pipelineMain jobId co dom tld pname cats pid s).1).stats.scraped
      = outcomeSum ((pipelineMain jobId co dom tld pname cats pid s).1).stats := by
  obtain ⟨hstop, hflag, heq⟩ := hx
  simp only [pipelineMain]
  rw [rpOr_of_not_stop _ _ _ _ _ hstop]
  try simp only []
  have hstop1 : Backend.should_stop
      (Backend.update_progress s.reg jobId [("phase", "partner_ready")]).1
        jobId = false := by
    simp only [Backend.should_stop_update_progress]; exact hstop
  rw [rpOr_of_not_stop _ _ _ _ _ hstop1]
  try simp only []
  rcases hm : co.mapLinks with m | all_urls
  · try simp only []
    simp only [rpPass_stats]
    simpa using heq
  · try simp only []
    exact pipelineAfterDiscovery_exact _ _ _ _ _ _ _ _ _ hcl
      ⟨by simpa [Backend.should_stop_update_progress] using hstop,
       by simpa using hflag, by simpa using heq⟩

/-- The whole pipeline under a raise-free classifier and no stop ends
with every scraped candidate charged to exactly one outcome counter. -/
theorem pipeline_exact (jobId : String) (co : Collab) (start_url : String)
    (cats : Option (List String)) (s : RunState)
    (hcl : ∀ q m, co.classify q ≠ Except.error m)
    (hx : exactState jobId s) :
    ((true_streaming_pipeline jobId co start_url cats s).1).stats.scraped
      = outcomeSum ((true_streaming_pipeline jobId co start_url cats s).1).stats := by
  obtain ⟨hstop, hflag, heq⟩ := hx
  simp only [true_streaming_pipeline]
  rw [rpOr_of_not_stop _ _ _ _ _ hstop]
  try simp only []
  have hstop1 : Backend.should_stop
      (Backend.update_progress s.reg jobId [("phase", "starting")]).1
        jobId = false := by
    simp only [Backend.should_stop_update_progress]; exact hstop
  rw [rpOr_of_not_stop _ _ _ _ _ hstop1]
  try simp only []
  have hstop2 : Backend.should_stop
      (Backend.update_progress (Backend.update_progress s.reg jobId
        [("phase", "starting")]).1 jobId [("phase", "setup")]).1
        jobId = false := by
    simp only [Backend.should_stop_update_progress]; exact hstop
  rw [rpOr_of_not_stop _ _ _ _ _ hstop2]
  try simp only []
  have hstop3 : Backend.should_stop
      (Backend.update_progress (Backend.update_progress (Backend.update_progress
        s.reg jobId [("phase", "starting")]).1 jobId [("phase", "setup")]).1
        jobId [("phase", "categories")]).1 jobId = false := by
    simp only [Backend.should_stop_update_progress]; exact hstop
  rw [rpOr_of_not_stop _ _ _ _ _ hstop3]
  try simp only []
  have hstop4 : Backend.should_stop
      (Backend.update_progress (Backend.update_progress (Backend.update_progress
        (Backend.update_progress s.reg jobId [("phase", "starting")]).1 jobId
        [("phase", "setup")]).1 jobId [("phase", "categories")]).1 jobId
        [("phase", "partner")]).1 jobId = false := by
    simp only [Backend.should_stop_update_progress]; exact hstop
  split
  · dsimp only
    simpa using heq
  · split
    · rw [rpOr_of_not_stop _ _ _ _ _ hstop4]
      try simp only []
      exact pipelineMain_exact _ _ _ _ _ _ _ _ hcl
        ⟨by simpa [Backend.should_stop_update_progress] using hstop,
         by simpa using hflag, by simpa using heq⟩
    · rw [rpOr_of_not_stop _ _ _ _ _ hstop4]
      try simp only []
      exact pipelineMain_exact _ _ _ _ _ _ _ _ hcl
        ⟨by simpa [Backend.should_stop_update_progress] using hstop,
         by simpa using hflag, by simpa using heq⟩

end Pipeline

/-! # Claim theorems -/

/-- C10: for a job identifier not present in the registry, should_stop is
False, get is not-found, and updateJob, updateProgress, markRunning,
markCompleted, markFailed and requestStop all return False leaving the
registry unchanged. -/
theorem C10_unknown_job_id_noop (r : Backend.Registry) (id : String)
    (u : Backend.JobUpdates) (prog : List (String × String))
    (res : Pipeline.PipelineResult) (err : String)
    (h : Backend.get_job r id = none) :
    Backend.should_stop r id = false ∧
    Backend.update_job r id u = (r, false) ∧
    Backend.update_progress r id prog = (r, false) ∧
    Backend.mark_running r id = (r, false) ∧
    Backend.mark_completed r id res = (r, false) ∧
    Backend.mark_failed r id err = (r, false) ∧
    Backend.request_stop r id = (r, false) := by
  simp [Backend.should_stop, Backend.update_job, Backend.update_progress,
    Backend.mark_running, Backend.mark_completed, Backend.mark_failed,
    Backend.request_stop, h]

/-- C10 witness: the no-op behaviour at a concrete unknown identifier. -/
theorem C10_unknown_job_id_noop_witness :
    Backend.get_job Fix.regA "zz" = none ∧
    (Backend.should_stop Fix.regA "zz" = false ∧
     Backend.update_job Fix.regA "zz" {} = (Fix.regA, false) ∧
     Backend.update_progress Fix.regA "zz" [] = (Fix.regA, false) ∧
     Backend.mark_running Fix.regA "zz" = (Fix.regA, false) ∧
     Backend.mark_completed Fix.regA "zz" { success := true } = (Fix.regA, false) ∧
     Backend.mark_failed Fix.regA "zz" "e" = (Fix.regA, false) ∧
     Backend.request_stop Fix.regA "zz" = (Fix.regA, false)) :=
  ⟨by decide,
   C10_unknown_job_id_noop Fix.regA "zz" {} [] { success := true } "e" (by decide)⟩

/-- C2 counterexample: the registry operation sequence create, markRunning,
requestStop, markCompleted moves the job from STOPPING to COMPLETED, a
transition outside the claimed direction. -/
theorem C2_counterexample_stopping_to_completed :
    Backend.getStatus (Backend.runOps Fix.cexOps) "j2"
      = some Backend.JobStatus.stopping ∧
    Backend.getStatus (Backend.runOps Fix.cexOps4) "j2"
      = some Backend.JobStatus.completed ∧
    Backend.specAllowedStep Backend.JobStatus.stopping Backend.JobStatus.completed
      = false := by
  decide

/-- C2 amended: under any single registry operation a job enters STOPPING
only from RUNNING (or was already STOPPING); in particular STOPPING never
follows COMPLETED or FAILED. The guards do not protect the other
direction: markCompleted and markFailed are unguarded, so STOPPING to
COMPLETED or FAILED is reachable (see the counterexample). -/
theorem C2_stopping_only_entered_from_running (r : Backend.Registry)
    (op : Backend.RegOp) (id : String) (j j1 : Backend.Job)
    (h : Backend.get_job r id = some j)
    (h1 : Backend.get_job (Backend.applyOp r op) id = some j1)
    (hs : j1.status = Backend.JobStatus.stopping) :
    j.status = Backend.JobStatus.running ∨ j.status = Backend.JobStatus.stopping := by
  cases op with
  | createJob id2 u cats =>
    simp only [Backend.applyOp, Backend.create_job] at h1
    rw [Backend.get_job_append r _ id j h] at h1
    right
    cases h1
    exact hs
  | markRunning id2 =>
    rcases hg : Backend.get_job r id2 with _ | j2 <;>
      simp only [Backend.applyOp, Backend.mark_running, Backend.update_job, hg] at h1
    · right; rw [h] at h1; cases h1; exact hs
    · rw [Backend.get_job_setJob, h] at h1
      by_cases he : id = id2
      · simp only [he, if_pos rfl, Option.map_some] at h1
        cases h1
        simp [Backend.applyUpdates] at hs
      · simp only [if_neg he, Option.map_some] at h1
        right; cases h1; exact hs
  | markCompleted id2 res =>
    rcases hg : Backend.get_job r id2 with _ | j2 <;>
      simp only [Backend.applyOp, Backend.mark_completed, Backend.update_job, hg] at h1
    · right; rw [h] at h1; cases h1; exact hs
    · rw [Backend.get_job_setJob, h] at h1
      by_cases he : id = id2
      · simp only [he, if_pos rfl, Option.map_some] at h1
        cases h1
        simp [Backend.applyUpdates] at hs
      · simp only [if_neg he, Option.map_some] at h1
        right; cases h1; exact hs
  | markFailed id2 err =>
    rcases hg : Backend.get_job r id2 with _ | j2 <;>
      simp only [Backend.applyOp, Backend.mark_failed, Backend.update_job, hg] at h1
    · right; rw [h] at h1; cases h1; exact hs
    · rw [Backend.get_job_setJob, h] at h1
      by_cases he : id = id2
      · simp only [he, if_pos rfl, Option.map_some] at h1
        cases h1
        simp [Backend.applyUpdates] at hs
      · simp only [if_neg he, Option.map_some] at h1
        right; cases h1; exact hs
  | requestStop id2 =>
    rcases hg : Backend.get_job r id2 with _ | j2 <;>
      simp only [Backend.applyOp, Backend.request_stop, hg] at h1
    · right; rw [h] at h1; cases h1; exact hs
    · rw [Backend.get_job_setJob, h] at h1
      by_cases he : id = id2
      · subst he
        rw [h] at hg
        cases hg
        simp only [if_pos rfl, Option.map_some] at h1
        cases h1
        simp only at hs
        by_cases hr : j.status = Backend.JobStatus.running
        · left; exact hr
        · right; rw [if_neg hr] at hs; exact hs
      · simp only [if_neg he, Option.map_some] at h1
        right; cases h1; exact hs
  | updateProgress id2 prog =>
    rcases hg : Backend.get_job r id2 with _ | j2 <;>
      simp only [Backend.applyOp, Backend.update_progress, hg] at h1
    · right; rw [h] at h1; cases h1; exact hs
    · rw [Backend.get_job_setJob, h] at h1
      by_cases he : id = id2
      · subst he
        rw [h] at hg
        cases hg
        simp only [if_pos rfl, Option.map_some] at h1
        cases h1
        right; exact hs
      · simp only [if_neg he, Option.map_some] at h1
        right; cases h1; exact hs


/-- C2 amended witness: the single step regB to regC enters STOPPING from
RUNNING. -/
theorem C2_stopping_only_entered_from_running_witness :
    Backend.get_job Fix.regB "j2" = some Fix.jobRunning ∧
    Backend.get_job (Backend.applyOp Fix.regB (Backend.RegOp.requestStop "j2")) "j2"
      = some Fix.jobStopping ∧
    Fix.jobStopping.status = Backend.JobStatus.stopping ∧
    (Fix.jobRunning.status = Backend.JobStatus.running ∨
     Fix.jobRunning.status = Backend.JobStatus.stopping) :=
  ⟨by decide, by decide, by decide,
   C2_stopping_only_entered_from_running Fix.regB (Backend.RegOp.requestStop "j2")
     "j2" Fix.jobRunning Fix.jobStopping (by decide) (by decide) (by decide)⟩

/-- C7: calling close on the batched writer a second time changes no
state and performs no additional flush; no record is written twice. -/
theorem C7_close_idempotent (bs : Nat) (s : Scrapper.InserterState) :
    Scrapper.close bs (Scrapper.close bs s) = Scrapper.close bs s := by
  cases h : s.writerDone <;> simp [Scrapper.close, h]

/-- C6: once close returns, the queue is fully drained, the pending
partial batch has had its final flush, and every record that had been
enqueued (already flushed, in the pending batch, or still queued) is in
the store. -/
theorem C6_close_drains_and_flushes_all (bs : Nat) (s : Scrapper.InserterState)
    (h : s.writerDone = false) :
    Scrapper.storeContents (Scrapper.close bs s) =
      Scrapper.storeContents s ++ s.batch ++ s.queued ∧
    (Scrapper.close bs s).queued = [] ∧
    (Scrapper.close bs s).batch = [] := by
  unfold Scrapper.close Scrapper.storeContents
  simp [h, Scrapper.drainLoop_flatten]

/-- C6 witness: closing a concrete mid-run writer state flushes the
pending batch and queue into the store. -/
theorem C6_close_drains_and_flushes_all_witness :
    Fix.wInserter.writerDone = false ∧
    (Scrapper.storeContents (Scrapper.close 2 Fix.wInserter) =
       Scrapper.storeContents Fix.wInserter ++ Fix.wInserter.batch ++ Fix.wInserter.queued ∧
     (Scrapper.close 2 Fix.wInserter).queued = [] ∧
     (Scrapper.close 2 Fix.wInserter).batch = []) :=
  ⟨by decide, C6_close_drains_and_flushes_all 2 Fix.wInserter (by decide)⟩

/-- C8: the string 1,299.00 with currency AED parses to the exact price
1299 with normalised currency AED (and a record carrying them is stored
with those values); the strings Free and the empty string are rejected as
invalid prices, the invalid counter is incremented and nothing is
persisted. -/
theorem C8_price_parsing :
    Pipeline.parse_price (Pipeline.PriceField.str "1,299.00") = some 1299 ∧
    Pipeline.normalize_currency (some "AED") = some "AED" ∧
    Pipeline.parse_price (Pipeline.PriceField.str "Free") = none ∧
    Pipeline.parse_price (Pipeline.PriceField.str "") = none ∧
    Fix.commaOut.1.products.map (fun pr => (pr.price, pr.currency)) = [(1299, "AED")] ∧
    Fix.freeOut.1.stats.invalid = 1 ∧ Fix.freeOut.1.products = [] ∧
    Fix.emptyOut.1.stats.invalid = 1 ∧ Fix.emptyOut.1.products = [] := by
  decide

/-- C4 counterexample: a leading www. is not stripped by canonicalization,
so the www and non-www variants of the same address get different
deduplication keys, contrary to the claim. -/
theorem C4_counterexample_www_not_collapsed :
    ¬ (Pipeline.canonical_url "http://www.x.com/a"
        = Pipeline.canonical_url "http://x.com/a") := by
  decide

/-- C4 amended: canonicalization collapses addresses differing only by a
trailing slash (www. variants stay distinct); processing ten raw
candidates of which two canonicalise identically (here by trailing slash)
yields exactly nine unique processed records and one duplicate. -/
theorem C4_trailing_slash_dedup :
    Pipeline.canonical_url "http://x.com/a/" = Pipeline.canonical_url "http://x.com/a" ∧
    Pipeline.canonical_url "http://mytek.tn/p1/"
      = Pipeline.canonical_url "http://mytek.tn/p1" ∧
    Fix.dedupOut.1.stats.scraped = 10 ∧
    Fix.dedupOut.1.stats.duplicates = 1 ∧
    Fix.dedupOut.1.stats.processed = 9 ∧
    Fix.dedupOut.1.products.length = 9 := by
  decide

/-- C5 counterexample: a record with a valid name and address but the
invalid price Free is counted invalid, yet its canonical address has
already been inserted into the run Seen-Set, contrary to the claim that
invalid records never reach the Seen-Set. -/
theorem C5_counterexample_invalid_price_inserted_in_seen :
    Fix.freeOut.1.stats.invalid = 1 ∧
    Fix.freeOut.1.seen = ["http://x.com/p"] ∧
    Fix.freeOut.1.products = [] := by
  decide

/-- C3 counterexample: when the classification collaborator raises, the
persisted record stays in status processing with no insurance package (no
ineligible degradation, no reason), contrary to the claim; the unit still
returns normally, so the run is not aborted. -/
theorem C3_counterexample_classification_failure_not_degraded :
    Fix.classifyDownOut.1.products.map (fun pr => (pr.product_name, pr.processing_status))
      = [("Laptop Pro", "processing")] ∧
    Fix.classifyDownOut.1.packages = [] ∧
    Pipeline.excOk Fix.classifyDownOut.2 = true := by
  decide

/-- C1: a job whose stop was requested while RUNNING ends COMPLETED, not
STOPPED: the pipeline converts the cooperative-stop signal into a normal
stopped-result dict, so the worker never sees JobStopRequested and calls
markCompleted; its STOPPED transition is unreachable through the pipeline. -/
theorem C1_stop_requested_job_ends_completed :
    Backend.getStatus Fix.stopRunFinal.reg "j" = some Backend.JobStatus.completed ∧
    (Backend.get_job Fix.stopRunFinal.reg "j").map (fun j => j.error) = some none ∧
    ((Backend.get_job Fix.stopRunFinal.reg "j").bind (fun j => j.result)).map
        (fun res => res.stopped) = some true := by
  decide

/-- C9 counterexample: a run whose only candidate passes every validation
check but whose classification call raises ends with one validated record
and zero duplicates and zero processed records, so the claimed identity
validated = duplicate + unique_processed fails. -/
theorem C9_counterexample_validated_not_outcome_sum :
    Pipeline.specValidatedCount Fix.ctxOne [Fix.validProduct] = 1 ∧
    Fix.fullClassifyDownOut.1.stats = { scraped := 1 } ∧
    Fix.fullClassifyDownOut.1.stats.duplicates
      + Fix.fullClassifyDownOut.1.stats.processed = 0 := by
  decide

/-- C3 amended: the two enrichment-failure paths differ. When the pricing
collaborator raises, the record is degraded to a not_eligible package with
a Pricing-failed reason, the product row is marked completed, and the unit
returns normally; but when the classification collaborator raises, the
exception propagates uncaught: the record stays persisted in status
processing with no package and no reason, and the unit aborts. -/
theorem C3_enrichment_failure_paths (jobId : String) (co : Pipeline.Collab)
    (ctx : Pipeline.UrlCtx) (s : Pipeline.RunState) (p : Pipeline.RawProduct)
    (price : ℚ) (currency url m : String)
    (hflag : s.stopFlag = false) :
    (co.classify (Pipeline.classifyQueryOf
        (Pipeline.mkStoredProduct ctx s p price currency url)) = Except.error m →
      ((Pipeline.enrichPersist jobId co ctx s p price currency url).1).products.map
          (fun pr => pr.processing_status)
        = s.products.map (fun pr => pr.processing_status) ++ ["processing"] ∧
      ((Pipeline.enrichPersist jobId co ctx s p price currency url).1).packages
        = s.packages ∧
      (Pipeline.enrichPersist jobId co ctx s p price currency url).2
        = Except.error (Pipeline.PyExc.other m)) ∧
    (∀ cr, co.classify (Pipeline.classifyQueryOf
        (Pipeline.mkStoredProduct ctx s p price currency url)) = Except.ok cr →
      (cr.classification.getD {}).eligible = true →
      (∀ q, co.price q = Except.error m) →
      Backend.should_stop s.reg jobId = false →
      (∀ pr ∈ s.products, pr.pid ≠ s.nextId) →
      ((Pipeline.enrichPersist jobId co ctx s p price currency url).1).packages.map
          (fun k => (k.status, k.package_data.reason))
        = s.packages.map (fun k => (k.status, k.package_data.reason))
          ++ [("not_eligible", some ("Pricing failed: " ++ m))] ∧
      ((Pipeline.enrichPersist jobId co ctx s p price currency url).1).products.map
          (fun pr => pr.processing_status)
        = s.products.map (fun pr => pr.processing_status) ++ ["completed"] ∧
      Pipeline.excOk (Pipeline.enrichPersist jobId co ctx s p price currency url).2
        = true) := by
  constructor
  · intro hcl
    simp only [Pipeline.enrichPersist, hflag, Bool.false_eq_true, if_false, hcl]
    refine ⟨?_, ?_, ?_⟩ <;> simp [Pipeline.mkStoredProduct]
  · intro cr hcl helig hpr hstop hfresh
    simp only [Pipeline.enrichPersist, hflag, Bool.false_eq_true, if_false, hcl,
      helig, Bool.not_true]
    rw [Pipeline.pricingPhase_error _ _ _ _ _ _ _ hpr]
    refine ⟨?_, ?_, ?_⟩
    · simp [Pipeline.report_progress_packages, Pipeline.create_insurance_package,
        Pipeline.markProductCompleted]
    · simp only [Pipeline.report_progress_products,
        Pipeline.create_insurance_package, Pipeline.markProductCompleted,
        List.map_append, Pipeline.map_status_setCompleted s.products s.nextId hfresh]
      simp [Pipeline.mkStoredProduct]
    · simp [Pipeline.report_progress, Pipeline.progress_cb, hstop, Pipeline.excOk,
        Pipeline.create_insurance_package, Pipeline.markProductCompleted]

/-- C3 witness: on a concrete valid record, the classification-failure run
keeps the row in status processing with no package and an aborting unit,
while the pricing-failure run yields a not_eligible package with the
Pricing-failed reason, a completed row, and a normal unit return. -/
theorem C3_enrichment_failure_paths_witness :
    ((((Pipeline.enrichPersist "j" Fix.coClassifyDown Fix.ctxOne {} Fix.validProduct
        100 "AED" "http://x.com/q").1).products.map (fun pr => pr.processing_status)
      = ["processing"]) ∧
     ((Pipeline.enrichPersist "j" Fix.coClassifyDown Fix.ctxOne {} Fix.validProduct
        100 "AED" "http://x.com/q").1).packages = [] ∧
     (Pipeline.enrichPersist "j" Fix.coClassifyDown Fix.ctxOne {} Fix.validProduct
        100 "AED" "http://x.com/q").2
       = Except.error (Pipeline.PyExc.other "classifier down")) ∧
    ((((Pipeline.enrichPersist "j" Fix.coPricingDown Fix.ctxOne {} Fix.validProduct
        100 "AED" "http://x.com/q").1).packages.map
          (fun k => (k.status, k.package_data.reason))
      = [("not_eligible", some ("Pricing failed: " ++ "pricing down"))]) ∧
     (((Pipeline.enrichPersist "j" Fix.coPricingDown Fix.ctxOne {} Fix.validProduct
        100 "AED" "http://x.com/q").1).products.map (fun pr => pr.processing_status)
      = ["completed"]) ∧
     Pipeline.excOk (Pipeline.enrichPersist "j" Fix.coPricingDown Fix.ctxOne {}
        Fix.validProduct 100 "AED" "http://x.com/q").2 = true) :=
  ⟨(C3_enrichment_failure_paths "j" Fix.coClassifyDown Fix.ctxOne {} Fix.validProduct
      100 "AED" "http://x.com/q" "classifier down" rfl).1 rfl,
   (C3_enrichment_failure_paths "j" Fix.coPricingDown Fix.ctxOne {} Fix.validProduct
      100 "AED" "http://x.com/q" "pricing down" rfl).2
     { classification := some { eligible := true, risk_profile := some "ELECTRONICS" } }
     rfl rfl (fun _ => rfl) rfl (fun pr h => absurd h (List.not_mem_nil pr))⟩

/-- C5 amended: the Seen-Set insertion happens as soon as a candidate
passes the name check, the category filter and URL normalization, before
the price and currency checks: any such candidate's canonical address is
inserted into the Seen-Set whether or not its price and currency validate,
so invalidly priced records do reach the Seen-Set. -/
theorem C5_seen_insert_precedes_price_validation (jobId : String)
    (co : Pipeline.Collab) (ctx : Pipeline.UrlCtx) (s : Pipeline.RunState)
    (p : Pipeline.RawProduct) (nu : String)
    (hflag : s.stopFlag = false)
    (hname : ¬ p.product_name = "")
    (hfil : Pipeline.match_product_to_selected_categories p.product_name
      (p.category.getD "") ctx.selected_categories = true)
    (hurl : Pipeline.normalize_url (Pipeline.productUrlRaw ctx p) = some nu)
    (hdup : s.seen.contains (Pipeline.canonical_url nu) = false) :
    ((Pipeline.processProduct jobId co ctx s p).1).seen
      = s.seen ++ [Pipeline.canonical_url nu] := by
  simp only [Pipeline.processProduct, hflag, Bool.false_eq_true, if_false,
    if_neg hname, hfil, Bool.not_true, hurl, hdup]
  repeat' split
  all_goals try rfl
  all_goals rw [Pipeline.enrichPersist_seen]

/-- C5 witness: the concrete Free-priced candidate passes name, filter and
normalization, fails price validation, and its canonical address is
nevertheless inserted into the Seen-Set. -/
theorem C5_seen_insert_precedes_price_validation_witness :
    ((Pipeline.processProduct "j" Fix.coBase Fix.ctxOne {} Fix.freePriceProduct).1).seen
      = [Pipeline.canonical_url "http://x.com/p"] :=
  C5_seen_insert_precedes_price_validation "j" Fix.coBase Fix.ctxOne {}
    Fix.freePriceProduct "http://x.com/p" rfl (by decide) (by decide) (by decide)
    (by decide)

/-- C9 amended: for every run the outcome counters (invalid, filtered_out,
duplicates, processed) never exceed the scraped counter plus whatever the
entry statistics held, and for a run with no stop pending and a
classification collaborator that never raises, every scraped candidate is
charged to exactly one outcome counter: scraped = invalid + filtered_out +
duplicates + processed. -/
theorem C9_stats_accounting (jobId : String) (co : Pipeline.Collab)
    (start_url : String) (cats : Option (List String)) (s : Pipeline.RunState) :
    (Pipeline.outcomeSum
        ((Pipeline.true_streaming_pipeline jobId co start_url cats s).1).stats ≤
      ((Pipeline.true_streaming_pipeline jobId co start_url cats s).1).stats.scraped
        + Pipeline.outcomeSum s.stats) ∧
    ((∀ q m, co.classify q ≠ Except.error m) → Pipeline.exactState jobId s →
      ((Pipeline.true_streaming_pipeline jobId co start_url cats s).1).stats.scraped
        = Pipeline.outcomeSum
          ((Pipeline.true_streaming_pipeline jobId co start_url cats s).1).stats) :=
  ⟨Pipeline.pipeline_bound jobId co start_url cats s,
   fun hcl hx => Pipeline.pipeline_exact jobId co start_url cats s hcl hx⟩

/-- C9 witness: the concrete stop-free dedup run with a never-raising
classifier ends with the scraped counter equal to the outcome sum. -/
theorem C9_stats_accounting_witness :
    ((Pipeline.true_streaming_pipeline "j" Fix.coFullDedup "http://mytek.tn" none
        ({} : Pipeline.RunState)).1).stats.scraped
      = Pipeline.outcomeSum ((Pipeline.true_streaming_pipeline "j" Fix.coFullDedup
        "http://mytek.tn" none ({} : Pipeline.RunState)).1).stats :=
  (C9_stats_accounting "j" Fix.coFullDedup "http://mytek.tn" none {}).2
    (fun q m h => by simp [Fix.coFullDedup, Fix.coDedup, Fix.coBase] at h)
    ⟨rfl, rfl, rfl⟩

end AutoAgent
